import Mathlib

/-!
Verification development for the rent-roll processor
(`akanmanthreddy/rent-roll-processor-v3`).

The Python sources are shallowly embedded:

* cells of a pandas `DataFrame` become `PyVal` (`na` models `NaN`/`NaT`/`None`;
  strings stay strings; numbers become `Dec`, an exact decimal
  mantissa/exponent pair — the repository's numeric data is currency and area
  figures, for which exact decimal arithmetic is the intended float semantics;
  timestamps become the order-preserving integer encoding `y*10000+m*100+d`);
* a `DataFrame` becomes `DF` (named columns over rows of `PyVal`);
* fallible Python functions return `Except PyExc _`;
* `src/processing.py`, `src/validator.py`, `src/format_detector.py` and
  `src/data_loader.py` are translated function by function below, keeping the
  source's names and statement order.

All string work is done on `List Char` so that every definition reduces in the
kernel and concrete runs can be settled by `decide`.
-/

/-! ## Exact decimals (the numeric values of the pipeline) -/

/-- An exact decimal number `man / 10 ^ exp`.  Every constructor used by the
embedding goes through `decNorm`, so reachable values are canonical (no
trailing zero factors, and zero is `⟨0, 0⟩`); structural equality therefore
coincides with value equality. -/
structure Dec where
  man : ℤ
  exp : ℕ
deriving DecidableEq, Repr

/-- Strip factors of ten from the mantissa (fuel = available exponent). -/
def decNormGo : Nat → ℤ → Dec
  | 0, m => ⟨m, 0⟩
  | e + 1, m => if m % 10 = 0 then decNormGo e (m / 10) else ⟨m, e + 1⟩

/-- Canonical decimal with value `m / 10 ^ e`. -/
def decNorm (m : ℤ) (e : ℕ) : Dec := decNormGo e m

/-- Exact decimal addition (pandas summation over currency cells). -/
def Dec.add (a b : Dec) : Dec :=
  let e := max a.exp b.exp
  decNorm (a.man * (10 : ℤ) ^ (e - a.exp) + b.man * (10 : ℤ) ^ (e - b.exp)) e

/-- Negation (canonical form is preserved). -/
def Dec.neg (a : Dec) : Dec := ⟨-a.man, a.exp⟩

/-- Value comparison `a < b`. -/
def Dec.ltb (a b : Dec) : Bool :=
  a.man * (10 : ℤ) ^ b.exp < b.man * (10 : ℤ) ^ a.exp

/-- Value comparison `a > b`. -/
def Dec.gtb (a b : Dec) : Bool := Dec.ltb b a

/-- The rational value of a decimal (for readable statements only). -/
def Dec.toRat (a : Dec) : ℚ := (a.man : ℚ) / (10 : ℚ) ^ a.exp

/-- `round(a / b)` for integers with `b > 0`, with Python's ties-to-even. -/
def roundHalfEven (a b : ℤ) : ℤ :=
  let q := Int.ediv a b
  let r := a - q * b
  if 2 * r < b then q
  else if 2 * r > b then q + 1
  else if q % 2 = 0 then q else q + 1

/-- `round(a / b, 2)` for a decimal `a` and a positive integer count `b`
(Python's `round(x, 2)` on the exact value, ties to even). -/
def Dec.roundDiv2 (a : Dec) (b : ℤ) : Dec :=
  decNorm (roundHalfEven (a.man * 100) ((10 : ℤ) ^ a.exp * b)) 2

/-! ## Python scalars and exceptions -/

/-- A Python scalar as it occurs in the tables processed by this repository. -/
inductive PyVal where
  | na : PyVal
  | vstr (s : String) : PyVal
  | vnum (d : Dec) : PyVal
  | vdate (d : ℤ) : PyVal
deriving DecidableEq, Repr

/-- Python exception kinds raised by the embedded code paths. -/
inductive PyExc where
  | nameError : PyExc
  | valueError : PyExc
  | attributeError : PyExc
deriving DecidableEq, Repr

/-! ## String primitives (list-based, kernel-reducing) -/

/-- `needle` occurs as a contiguous substring of `haystack` (Python's `in`). -/
def listContainsSub (hay pat : List Char) : Bool :=
  match hay with
  | [] => pat.isEmpty
  | c :: t => pat.isPrefixOf (c :: t) || listContainsSub t pat

/-- Python's `pat in s` substring test. -/
def strContains (s pat : String) : Bool :=
  listContainsSub s.data pat.data

/-- The whitespace class of Python's `str.strip` / `str.isspace` (ASCII). -/
def pySpace (c : Char) : Bool :=
  c = ' ' || c = '\t' || c = '\n' || c = '\r' || c.toNat = 11 || c.toNat = 12

/-- Python `str.strip()`. -/
def strStrip (s : String) : String :=
  String.mk (((s.data.dropWhile pySpace).reverse.dropWhile pySpace).reverse)

/-- Python `str.lower()` (ASCII data in this repository). -/
def strLower (s : String) : String := String.mk (s.data.map Char.toLower)

/-- Python `str.upper()` (ASCII data in this repository). -/
def strUpper (s : String) : String := String.mk (s.data.map Char.toUpper)

/-- Python string `<` (codepoint-lexicographic), as a Bool. -/
def charListLt : List Char → List Char → Bool
  | [], [] => false
  | [], _ :: _ => true
  | _ :: _, [] => false
  | a :: t, b :: u =>
    if a.toNat < b.toNat then true
    else if a.toNat = b.toNat then charListLt t u
    else false

/-- Python string `<` on `String`. -/
def strLtB (a b : String) : Bool := charListLt a.data b.data

/-- Python `s.split(sep)` for a one-character separator. -/
def splitOnCharGo (sep : Char) : List Char → List Char → List String
  | [], acc => [String.mk acc.reverse]
  | c :: t, acc =>
    if c = sep then String.mk acc.reverse :: splitOnCharGo sep t []
    else splitOnCharGo sep t (c :: acc)

/-- Python `s.split(sep)` for a one-character separator. -/
def splitOnChar (sep : Char) (s : String) : List String :=
  splitOnCharGo sep s.data []

/-- Value of a digit string (caller guarantees all chars are digits). -/
def digitsToNat (l : List Char) : Nat :=
  l.foldl (fun a c => a * 10 + (c.toNat - 48)) 0

/-- `str(float)` rendering; in the embedded pipeline `astype(str)` is only ever
applied to freshly loaded string/NaN cells, so this branch is unexercised; it
is still given a definite value for totality. -/
def decStr (a : Dec) : String :=
  if a.exp = 0 then toString a.man ++ ".0" else toString a.man ++ "e-" ++ toString a.exp

/-- `str(value)` for a cell; `str()` of a pandas missing value is `"nan"`,
which is exactly what `astype(str)` produces. -/
def pyStr : PyVal → String
  | .na => "nan"
  | .vstr s => s
  | .vnum d => decStr d
  | .vdate d => toString d

/-! ## `processing.clean_and_convert_to_numeric` -/

/-- Helper for the accounting-parenthesis regex `\((.*?)\)`: split the input at
the first closing parenthesis, returning the part before it and the rest. -/
def splitAtClose : List Char → Option (List Char × List Char)
  | [] => none
  | c :: t =>
    if c = ')' then some ([], t)
    else (splitAtClose t).map (fun p => (c :: p.1, p.2))

/-- `re.sub(r'\((.*?)\)', r'-\1', s)`: non-greedily rewrite each parenthesised
run to a leading minus, scanning left to right and continuing after each
replacement, exactly as `re.sub` does.  Structural recursion on a fuel that
the wrapper sets to the input length; every step consumes at least one input
character, so the fuel never runs out. -/
def parenSubGo : Nat → List Char → List Char
  | 0, l => l
  | _ + 1, [] => []
  | fuel + 1, c :: t =>
    if c = '(' then
      match splitAtClose t with
      | some p => '-' :: p.1 ++ parenSubGo fuel p.2
      | none => '(' :: parenSubGo fuel t
    else c :: parenSubGo fuel t

/-- See `parenSubGo`. -/
def parenSub (l : List Char) : List Char := parenSubGo l.length l

/-- `.str.replace(r'[$,]', '', regex=True)`. -/
def stripDollarComma (s : String) : String :=
  String.mk (s.data.filter (fun c => !(c = '$' || c = ',')))

/-- A plain decimal literal, as accepted by `pd.to_numeric` on this
repository's currency data: optional sign, digits, at most one dot.  Exotic
forms (exponents, `inf`, underscores) are outside the fragment the source ever
feeds to it and coerce to missing here. -/
def parseDecimal (s : String) : Option Dec :=
  let l := s.data
  let sgn : Bool × List Char :=
    match l with
    | '-' :: t => (true, t)
    | '+' :: t => (false, t)
    | _ => (false, l)
  let ip := sgn.2.takeWhile Char.isDigit
  let rest := sgn.2.dropWhile Char.isDigit
  let core : Option Dec :=
    match rest with
    | [] => if ip.isEmpty then none else some (decNorm (digitsToNat ip : ℤ) 0)
    | '.' :: fp =>
      if fp.all Char.isDigit && !(ip.isEmpty && fp.isEmpty) then
        some (decNorm ((digitsToNat ip : ℤ) * (10 : ℤ) ^ fp.length + (digitsToNat fp : ℤ)) fp.length)
      else none
    | _ => none
  core.map (fun d => if sgn.1 then d.neg else d)

/-- One cell of `processing.clean_and_convert_to_numeric`:
`astype(str)`, strip `[$,]`, rewrite `(x)` to `-x`, strip whitespace, map the
sentinels `['', 'nan', 'None', 'null']` to missing, then
`pd.to_numeric(..., errors='coerce')`. -/
def clean_and_convert_cell (v : PyVal) : PyVal :=
  let s1 := stripDollarComma (pyStr v)
  let s2 := String.mk (parenSub s1.data)
  let s3 := strStrip s2
  if s3 = "" || s3 = "nan" || s3 = "None" || s3 = "null" then PyVal.na
  else
    match parseDecimal s3 with
    | some d => PyVal.vnum d
    | none => PyVal.na

/-- `processing.clean_and_convert_to_numeric` over a whole column (the
empty-series early return is the same map). -/
def clean_and_convert_to_numeric (series : List PyVal) : List PyVal :=
  series.map clean_and_convert_cell

/-! ## DataFrames -/

/-- A pandas `DataFrame`: named columns over rows of cells.  Cells are
addressed positionally through the column-name list; a short row reads as
missing, as an all-`NaN` pad would. -/
structure DF where
  cols : List String
  rows : List (List PyVal)
deriving DecidableEq, Repr

/-- Index of the first occurrence of a label in a column list. -/
def colIdxGo (c : String) : List String → Option Nat
  | [] => none
  | x :: t => if x = c then some 0 else (colIdxGo c t).map (· + 1)

/-- Position of a column label (first occurrence, as pandas label lookup). -/
def DF.colIdx (d : DF) (c : String) : Option Nat :=
  colIdxGo c d.cols

/-- Cell at position `i` of a row. -/
def rowGet (r : List PyVal) (i : Nat) : PyVal := r.getD i PyVal.na

/-- `row[c]` for this frame's column layout. -/
def DF.getVal (d : DF) (c : String) (r : List PyVal) : PyVal :=
  match d.colIdx c with
  | some i => rowGet r i
  | none => PyVal.na

/-- The column `c` as a list of cells (empty when the label is absent). -/
def DF.colVals (d : DF) (c : String) : List PyVal :=
  match d.colIdx c with
  | some i => d.rows.map (fun r => rowGet r i)
  | none => []

/-- `df[c] = df[c].map(f)`: rewrite an existing column cell-wise (identity
when the label is absent; all call sites guard on presence). -/
def DF.mapCol (d : DF) (c : String) (f : PyVal → PyVal) : DF :=
  match d.colIdx c with
  | some i => { d with rows := d.rows.map (fun r => r.set i (f (rowGet r i))) }
  | none => d

/-- `df[c] = <row-wise value>`: replace the column when the label exists,
else append it on the right, as pandas column assignment does. -/
def DF.setCol (d : DF) (c : String) (f : List PyVal → PyVal) : DF :=
  match d.colIdx c with
  | some i => { d with rows := d.rows.map (fun r => r.set i (f r)) }
  | none => { cols := d.cols ++ [c], rows := d.rows.map (fun r => r ++ [f r]) }

/-- `df[mask]` row filtering. -/
def DF.filterRows (d : DF) (p : List PyVal → Bool) : DF :=
  { d with rows := d.rows.filter p }

/-- Insert into a `<`-sorted list (groupby/pivot key ordering). -/
def insertSorted (x : String) (l : List String) : List String :=
  match l with
  | [] => [x]
  | y :: t => if strLtB x y then x :: y :: t else y :: insertSorted x t

/-- Sort strings as pandas sorts group keys (lexicographic `<`). -/
def sortStrings (l : List String) : List String := l.foldr insertSorted []

/-- First-occurrence-preserving dedup. -/
def dedupKeep (l : List String) : List String :=
  l.foldl (fun acc x => if x ∈ acc then acc else acc ++ [x]) []

/-- pandas `GroupBy.first`: the first non-missing value of the group. -/
def firstNonNa : List PyVal → PyVal
  | [] => PyVal.na
  | v :: t => if v = PyVal.na then firstNonNa t else v

/-- A groupby key: string cells group by their text; missing keys are dropped
(`groupby(..., dropna=True)`), and after `astype(str)` the unit column only
holds strings. -/
def unitKey : PyVal → Option String
  | .vstr s => some s
  | _ => none

/-- `df.groupby('unit', as_index=False).agg({c: 'first' for c in aggCols})`:
one row per distinct unit value, keys sorted, each aggregated column taking
its first non-missing value within the group (processing.py line 131). -/
def DF.groupbyUnitFirst (d : DF) (aggCols : List String) : DF :=
  let keys := sortStrings (dedupKeep (d.rows.filterMap (fun r => unitKey (d.getVal "unit" r))))
  { cols := "unit" :: aggCols,
    rows := keys.map (fun k =>
      let grp := d.rows.filter (fun r => d.getVal "unit" r = PyVal.vstr k)
      PyVal.vstr k :: aggCols.map (fun c => firstNonNa (grp.map (fun r => d.getVal c r)))) }

/-- The running sum `aggfunc='sum'` accumulates over the rows of one
`(unit, charge_code)` cell of the pivot (processing.py lines 173-179). -/
def pivotCellFold (d : DF) (rows : List (List PyVal)) (u c : String) : Dec :=
  rows.foldl (fun acc r =>
    if d.getVal "unit" r = PyVal.vstr u ∧ d.getVal "charge_code" r = PyVal.vstr c then
      match d.getVal "amount" r with
      | .vnum q => acc.add q
      | _ => acc
    else acc) ⟨0, 0⟩

/-- `pivot_table(index='unit', columns='charge_code', values='amount',
aggfunc='sum', fill_value=0).reset_index()`: sorted unit rows, one sorted
column per distinct charge code, cell = sum of the pair's amounts (0 when the
pair has no rows). -/
def DF.pivotChargeTable (d : DF) : DF :=
  let us := sortStrings (dedupKeep (d.rows.filterMap (fun r => unitKey (d.getVal "unit" r))))
  let cs := sortStrings (dedupKeep (d.rows.filterMap (fun r => unitKey (d.getVal "charge_code" r))))
  { cols := "unit" :: cs,
    rows := us.map (fun u =>
      PyVal.vstr u :: cs.map (fun c => PyVal.vnum (pivotCellFold d d.rows u c))) }

/-- `pd.merge(left, right, on='unit', how='left')`; the right key is unique in
the modelled flow (it is a pivot index), and the flows below have no
overlapping non-key labels, so pandas' `_x`/`_y` suffixing never fires. -/
def DF.mergeLeftOnUnit (l r : DF) : DF :=
  let rNonKey := r.cols.filter (fun c => c != "unit")
  { cols := l.cols ++ rNonKey,
    rows := l.rows.map (fun row =>
      match r.rows.find? (fun rr => r.getVal "unit" rr = l.getVal "unit" row) with
      | some rr => row ++ rNonKey.map (fun c => r.getVal c rr)
      | none => row ++ rNonKey.map (fun _ => PyVal.na)) }

/-- `df[c] = df[c].fillna(0)`. -/
def DF.fillna0 (d : DF) (c : String) : DF :=
  d.mapCol c (fun v => if v = PyVal.na then PyVal.vnum ⟨0, 0⟩ else v)

/-! ## `processing.process_rent_roll_vectorized` -/

/-- `config.FILTER_PATTERNS`' sentinel unit strings (processing.py line 80 and
line 255 use the same literal list). -/
def invalidUnitStrings : List String :=
  ["nan", "NaN", "NAN", "null", "NULL", "None", "NONE", "", " "]

/-- processing.py lines 107-109 (the function's local `primary_cols`). -/
def primaryColsList : List String :=
  ["unit", "unit_type", "sq_ft", "resident_code", "resident_name",
   "market_rent", "resident_deposit", "other_deposit",
   "move_in", "lease_expiration", "move_out", "balance"]

/-- processing.py line 101. -/
def numericColsList : List String :=
  ["market_rent", "sq_ft", "resident_deposit", "other_deposit", "balance"]

/-- processing.py line 94. -/
def dateColsList : List String := ["move_in", "move_out", "lease_expiration"]

/-- processing.py lines 67-74: require a `unit` column, renaming the first
column whose lowered name contains `unit`, else `ValueError`. -/
def resolveUnitCol (d : DF) : Except PyExc DF :=
  if d.cols.contains "unit" then .ok d
  else
    match d.cols.filter (fun c => strContains (strLower c) "unit") with
    | [] => .error PyExc.valueError
    | c0 :: _ => .ok { d with cols := d.cols.map (fun c => if c = c0 then "unit" else c) }

/-- processing.py line 77: `df['unit'].astype(str).str.strip()`. -/
def cleanUnitCol (d : DF) : DF :=
  d.mapCol "unit" (fun v => PyVal.vstr (strStrip (pyStr v)))

/-- processing.py lines 80-82: drop sentinel unit values, then `notna()`. -/
def filterInvalidUnits (d : DF) : DF :=
  let d2 := d.filterRows (fun r =>
    match d.getVal "unit" r with
    | .vstr s => !(invalidUnitStrings.contains s)
    | _ => true)
  d2.filterRows (fun r => d2.getVal "unit" r != PyVal.na)

/-- processing.py lines 87-91: the `FILTER_PATTERNS` loop — literal `,,,,,`
separators, then `total`, then `summary` against the lowered unit text
(`.str.contains(..., na=False)` leaves non-string cells unflagged). -/
def filterPatternsStep (d : DF) : DF :=
  let d1 := d.filterRows (fun r =>
    match d.getVal "unit" r with
    | .vstr s => !(strContains s ",,,,,")
    | _ => true)
  let d2 := d1.filterRows (fun r =>
    match d1.getVal "unit" r with
    | .vstr s => !(strContains (strLower s) "total")
    | _ => true)
  d2.filterRows (fun r =>
    match d2.getVal "unit" r with
    | .vstr s => !(strContains (strLower s) "summary")
    | _ => true)

/-- ISO `yyyy-mm-dd`, the date shape exercised by this development, encoded
order-preservingly as `y*10000 + m*100 + d`; anything else coerces to `NaT`
exactly as `pd.to_datetime(..., errors='coerce')` does on unparseable text. -/
def parseDateISO (s : String) : Option ℤ :=
  match splitOnChar '-' s with
  | [ys, ms, ds] =>
    let yl := ys.data
    let ml := ms.data
    let dl := ds.data
    if (!yl.isEmpty && yl.all Char.isDigit) &&
       (!ml.isEmpty && ml.all Char.isDigit) &&
       (!dl.isEmpty && dl.all Char.isDigit) then
      let m := digitsToNat ml
      let dd := digitsToNat dl
      if 1 ≤ m ∧ m ≤ 12 ∧ 1 ≤ dd ∧ dd ≤ 31 then
        some ((digitsToNat yl : ℤ) * 10000 + (m : ℤ) * 100 + (dd : ℤ))
      else none
    else none
  | _ => none

/-- `pd.to_datetime(cell, errors='coerce')`. -/
def toDatetimeCell : PyVal → PyVal
  | .vstr s =>
    match parseDateISO s with
    | some d => .vdate d
    | none => .na
  | .vdate d => .vdate d
  | _ => .na

/-- processing.py lines 94-98. -/
def convertDateCols (d : DF) : DF :=
  dateColsList.foldl (fun acc c =>
    if acc.cols.contains c then acc.mapCol c toDatetimeCell else acc) d

/-- processing.py lines 101-104. -/
def cleanNumericCols (d : DF) : DF :=
  numericColsList.foldl (fun acc c =>
    if acc.cols.contains c then acc.mapCol c clean_and_convert_cell else acc) d

/-- processing.py lines 152-159: the valid-charge row mask (`notna`, not a
sentinel text, non-missing and non-zero amount). -/
def validChargeRow (d : DF) (r : List PyVal) : Bool :=
  (match d.getVal "charge_code" r with
   | .na => false
   | .vstr s => !(s == "" || s == "nan" || s == "null")
   | _ => true) &&
  (match d.getVal "amount" r with
   | .vnum q => !(q == (⟨0, 0⟩ : Dec))
   | _ => false)

/-- processing.py line 162: drop charge codes containing `total` or `summary`
(`.str.contains('total|summary', na=False)`). -/
def chargeNotTotalRow (d : DF) (r : List PyVal) : Bool :=
  match d.getVal "charge_code" r with
  | .vstr s => !(strContains s "total" || strContains s "summary")
  | _ => true

/-- pivot column-name cleanup, processing.py line 184:
`str(col).strip().lower().replace(' ', '_')`. -/
def pivotColClean (s : String) : String :=
  String.mk ((strLower (strStrip s)).data.map (fun c => if c = ' ' then '_' else c))

/-- final column-name cleanup, processing.py line 208:
`str(col).lower().strip().replace(' ', '_')`. -/
def finalColClean (s : String) : String :=
  String.mk ((strStrip (strLower s)).data.map (fun c => if c = ' ' then '_' else c))

/-- The pivot with its column names cleaned, processing.py lines 173-184. -/
def pivotCleaned (cdf : DF) : DF :=
  { cols := cdf.pivotChargeTable.cols.map pivotColClean,
    rows := cdf.pivotChargeTable.rows }

/-- processing.py lines 164-202: when valid charge rows exist, pivot them,
left-join the pivot onto the unit table and zero-fill each charge column;
otherwise the unit table passes through unchanged. -/
def chargePivotAssemble (cdf unitInfo : DF) : DF :=
  if cdf.rows.isEmpty then unitInfo
  else
    ((pivotCleaned cdf).cols.filter (fun c => c != "unit")).foldl
      (fun acc c => acc.fillna0 c) (unitInfo.mergeLeftOnUnit (pivotCleaned cdf))

/-- processing.py lines 144-205: clean the charge columns, filter to valid
charges, then `chargePivotAssemble`; without charge columns the unit table
passes through unchanged. -/
def chargeStep (d : DF) (unitInfo : DF) : DF :=
  if d.cols.contains "charge_code" ∧ d.cols.contains "amount" then
    let d1 := d.mapCol "charge_code" (fun v => PyVal.vstr (strLower (strStrip (pyStr v))))
    let d2 := d1.mapCol "amount" clean_and_convert_cell
    chargePivotAssemble ((d2.filterRows (validChargeRow d2)).filterRows (chargeNotTotalRow d2))
      unitInfo
  else unitInfo

/-- processing.py lines 212-217: the occupancy lambda over a resident cell. -/
def occupancyOfCell (v : PyVal) : String :=
  if v = PyVal.na ∨ strStrip (pyStr v) = "" ∨
     (strUpper (pyStr v)) ∈ ["VACANT", "NAN", "NULL", "NONE"] then "Vacant"
  else "Occupied"

/-- processing.py lines 211-226: `occupancy_status` from `resident_name`,
else from `resident_code`, else the constant `Unknown`. -/
def addOccupancy (d : DF) : DF :=
  if d.cols.contains "resident_name" then
    d.setCol "occupancy_status" (fun r => PyVal.vstr (occupancyOfCell (d.getVal "resident_name" r)))
  else if d.cols.contains "resident_code" then
    d.setCol "occupancy_status" (fun r => PyVal.vstr (occupancyOfCell (d.getVal "resident_code" r)))
  else d.setCol "occupancy_status" (fun _ => PyVal.vstr "Unknown")

/-- processing.py lines 229-237: `actual_rent` is the `rent` column when
present; otherwise the first other column whose lowered name contains `rent`
(excluding `petrent`); otherwise no `actual_rent` column is created. -/
def addActualRent (d : DF) : DF :=
  if d.cols.contains "rent" then
    d.setCol "actual_rent" (fun r => d.getVal "rent" r)
  else
    match d.cols.filter (fun c => strContains (strLower c) "rent" && c != "petrent") with
    | [] => d
    | c0 :: _ => d.setCol "actual_rent" (fun r => d.getVal c0 r)

/-- processing.py line 208: rewrite every final column name with
`str(col).lower().strip().replace(' ', '_')`. -/
def cleanColsStep (d : DF) : DF :=
  { cols := d.cols.map finalColClean, rows := d.rows }

/-- processing.py line 255: the defensive re-filter of sentinel unit values
(`.isin` is false on missing, so such rows are kept). -/
def finalUnitFilter (d : DF) : DF :=
  d.filterRows (fun r =>
    match d.getVal "unit" r with
    | .vstr s => !(invalidUnitStrings.contains s)
    | _ => true)

/-- `processing.process_rent_roll_vectorized`, processing.py lines 54-266,
step for step.  `optimize_memory_usage` only rewrites physical dtypes
(loss-free downcasts and categoricals), so it is the identity on cell
values. -/
def process_rent_roll_vectorized (df : DF) : Except PyExc DF :=
  if df.rows.isEmpty || df.cols.isEmpty then .ok { cols := [], rows := [] }
  else
    match resolveUnitCol df with
    | .error e => .error e
    | .ok d0 =>
      let d1 := cleanUnitCol d0
      let d2 := filterInvalidUnits d1
      let d3 := filterPatternsStep d2
      let d4 := convertDateCols d3
      let d5 := cleanNumericCols d4
      let aggCols := (primaryColsList.filter (fun c => d5.cols.contains c)).filter (fun c => c != "unit")
      let unitInfo := d5.groupbyUnitFirst aggCols
      let fdf := chargeStep d5 unitInfo
      let fdf2 := cleanColsStep fdf
      let fdf3 := addOccupancy fdf2
      let fdf4 := addActualRent fdf3
      .ok (finalUnitFilter fdf4)

/-- Decidable equality for embedded fallible results. -/
instance exceptDecEq {ε α : Type} [DecidableEq ε] [DecidableEq α] :
    DecidableEq (Except ε α) := fun a b =>
  match a, b with
  | .ok x, .ok y =>
    if h : x = y then isTrue (by rw [h]) else isFalse (by simp [h])
  | .error x, .error y =>
    if h : x = y then isTrue (by rw [h]) else isFalse (by simp [h])
  | .ok _, .error _ => isFalse (by simp)
  | .error _, .ok _ => isFalse (by simp)

/-! ## Derived notions used by the statements -/

/-- The first cell of each row (the `unit` column of every assembled table). -/
def headsOf (d : DF) : List PyVal := d.rows.map (fun r => r.headD PyVal.na)

/-- The skip-missing sum that pandas aggregation performs over a list of
amount cells: missing cells contribute nothing, numeric cells add up. -/
def sumDecs (l : List PyVal) : Dec :=
  l.foldl (fun a v =>
    match v with
    | PyVal.vnum q => a.add q
    | _ => a) ⟨0, 0⟩

/-- The spec's wording for a vacant resident field (claim C6): the field is
missing, empty (up to whitespace), or reads as one of `VACANT`/`NAN`/`NULL`/
`NONE` case-insensitively. -/
def vacantResidentField (v : PyVal) : Prop :=
  v = PyVal.na ∨ strStrip (pyStr v) = "" ∨
    strUpper (pyStr v) ∈ (["VACANT", "NAN", "NULL", "NONE"] : List String)

instance (v : PyVal) : Decidable (vacantResidentField v) := by
  unfold vacantResidentField; infer_instance

/-- Invariant carried through the assembly steps of the reshaper: the first
column is `unit` and every row is nonempty. -/
structure UnitHeadInv (d : DF) : Prop where
  head_unit : ∃ rest, d.cols = "unit" :: rest
  rows_ne : ∀ r ∈ d.rows, r ≠ []

/-! ## Concrete tables for the claims -/

/-- C2's long table: unit `101`'s block is `[attribute row, charge row]` with
the unit cell blank on the charge row, which is the only row carrying a
move-out date; unit `102` is an adjacent vacant block with no move-out. -/
def c2df : DF :=
  { cols := ["unit", "unit_type", "resident_name", "move_out", "charge_code", "amount"],
    rows := [
      [.vstr "101", .vstr "1BR", .vstr "J Doe", .na, .vstr "rent", .vstr "900"],
      [.na, .na, .na, .vstr "2024-03-31", .vstr "fee", .vstr "25"],
      [.vstr "102", .vstr "1BR", .na, .na, .na, .na]] }

/-- What the code actually produces for `c2df`. -/
def c2out : DF :=
  { cols := ["unit", "unit_type", "resident_name", "move_out", "rent",
             "occupancy_status", "actual_rent"],
    rows := [
      [.vstr "101", .vstr "1BR", .vstr "J Doe", .na, .vnum ⟨900, 0⟩, .vstr "Occupied", .vnum ⟨900, 0⟩],
      [.vstr "102", .vstr "1BR", .na, .na, .vnum ⟨0, 0⟩, .vstr "Vacant", .vnum ⟨0, 0⟩]] }

/-- C5's long table: unit `101` carries the charge code `rent` twice, with
amounts `900` and `50`. -/
def c5df : DF :=
  { cols := ["unit", "unit_type", "charge_code", "amount"],
    rows := [
      [.vstr "101", .vstr "1BR", .vstr "rent", .vstr "900"],
      [.vstr "101", .na, .vstr "rent", .vstr "50"]] }

/-- The reshaped output for `c5df`: a single `rent` column valued `950`. -/
def c5out : DF :=
  { cols := ["unit", "unit_type", "rent", "occupancy_status", "actual_rent"],
    rows := [[.vstr "101", .vstr "1BR", .vnum ⟨950, 0⟩, .vstr "Unknown", .vnum ⟨950, 0⟩]] }

/-- C6's long table: unit `101` has a resident and a rent charge; unit `201`
has an attribute row, no resident and no valid charge rows. -/
def c6df : DF :=
  { cols := ["unit", "resident_name", "charge_code", "amount"],
    rows := [
      [.vstr "101", .vstr "J Doe", .vstr "rent", .vstr "900"],
      [.vstr "201", .na, .na, .na]] }

/-- The reshaped output for `c6df`: the chargeless unit `201` still appears,
its charge column is `0` and it is `Vacant`. -/
def c6out : DF :=
  { cols := ["unit", "resident_name", "rent", "occupancy_status", "actual_rent"],
    rows := [
      [.vstr "101", .vstr "J Doe", .vnum ⟨900, 0⟩, .vstr "Occupied", .vnum ⟨900, 0⟩],
      [.vstr "201", .na, .vnum ⟨0, 0⟩, .vstr "Vacant", .vnum ⟨0, 0⟩]] }

/-- C9's table: no charge rows at all (no pivoted `rent` column will exist),
but a `market_rent` attribute of `1200`. -/
def c9df : DF :=
  { cols := ["unit", "market_rent"],
    rows := [[.vstr "101", .vstr "1200"]] }

/-- The output for `c9df`: `actual_rent` is a copy of `market_rent`
(`1200`), not `0`. -/
def c9out : DF :=
  { cols := ["unit", "market_rent", "occupancy_status", "actual_rent"],
    rows := [[.vstr "101", .vnum ⟨1200, 0⟩, .vstr "Unknown", .vnum ⟨1200, 0⟩]] }

/-- A small table whose unit value repeats, for the C10 witness. -/
def c10df : DF :=
  { cols := ["unit", "unit_type"],
    rows := [
      [.vstr "101", .vstr "a"],
      [.vstr "101", .vstr "b"],
      [.vstr "102", .vstr "c"]] }

/-- The reshaped output for `c10df` (each unit merged to one record). -/
def c10out : DF :=
  { cols := ["unit", "unit_type", "occupancy_status"],
    rows := [
      [.vstr "101", .vstr "a", .vstr "Unknown"],
      [.vstr "102", .vstr "c", .vstr "Unknown"]] }

/-- A table for the C9 amended-claim witness. -/
def c9wdf : DF :=
  { cols := ["unit", "market_rent"],
    rows := [[.vstr "101", .vnum ⟨1200, 0⟩]] }

/-! ## `src/config.py` validation settings -/

/-- `config.VALIDATION_THRESHOLDS['data_quality_penalties']`. -/
structure QualityPenalties where
  missing_required_columns : ℤ
  missing_unit_numbers : ℤ
  negative_market_rent : ℤ
  invalid_sqft : ℤ
  date_mismatch : ℤ
  duplicate_units : ℤ
  unrealistic_values : ℤ
deriving DecidableEq, Repr

/-- config.py lines 162-170. -/
def data_quality_penalties : QualityPenalties :=
  { missing_required_columns := 25, missing_unit_numbers := 20,
    negative_market_rent := 10, invalid_sqft := 10, date_mismatch := 15,
    duplicate_units := 5, unrealistic_values := 5 }

/-- config.py line 159. -/
def max_reasonable_rent : Dec := ⟨50000, 0⟩

/-- config.py line 160. -/
def max_reasonable_sqft : Dec := ⟨10000, 0⟩

/-- config.py line 161. -/
def min_reasonable_sqft : Dec := ⟨100, 0⟩

/-- config.py line 174. -/
def REQUIRED_COLUMNS : List String := ["unit", "unit_type", "sq_ft", "market_rent"]

/-! ## `src/validator.py` -/

/-- The validation findings, modelled structurally (each constructor is one of
validator.py's formatted message strings, carrying the data interpolated into
it; `none` on the rent messages is the `'Multiple units'` fallback used when
no `unit` column exists). -/
inductive VMsg where
  | missingExpectedColumns (cols : List String) : VMsg
  | missingUnitNumbers : VMsg
  | duplicateUnits (units : List PyVal) : VMsg
  | noUnitColumn : VMsg
  | negativeMarketRent (units : Option (List PyVal)) : VMsg
  | unusuallyHighRent (units : Option (List PyVal)) : VMsg
  | invalidSqft (units : List PyVal) : VMsg
  | hugeSqft (units : List PyVal) : VMsg
  | futureMoveIn (units : List PyVal) : VMsg
  | moveOutBeforeMoveIn (units : List PyVal) : VMsg
deriving DecidableEq, Repr

/-- The statistics map of validator.py lines 162-192; a `none` average models
either an absent key or pandas' `NaN` mean of an empty column. -/
structure VStats where
  total_units : ℕ
  occupied_units : ℕ
  vacant_units : ℕ
  occupancy_rate : Dec
  avg_market_rent : Option Dec
  total_market_rent : Option Dec
  avg_actual_rent : Option Dec
  total_actual_rent : Option Dec
  avg_sq_ft : Option Dec
  total_sq_ft : Option Dec
deriving DecidableEq, Repr

/-- The dictionary returned by `validate_rent_roll`. -/
structure ValidationReport where
  errors : List VMsg
  warnings : List VMsg
  statistics : VStats
  data_quality_score : ℤ
  available_columns : List String
  row_count : ℕ
deriving DecidableEq, Repr

/-- First-occurrence-preserving dedup over cell values (`Series.unique`). -/
def dedupKeepPy (l : List PyVal) : List PyVal :=
  l.foldl (fun acc x => if x ∈ acc then acc else acc ++ [x]) []

/-- The values marked by `df.duplicated(subset=['unit'], keep=False)` and then
`.unique()`: each value occurring at least twice, in first-occurrence order
(pandas treats missing as equal to missing here, as does `PyVal` equality). -/
def dupVals (l : List PyVal) : List PyVal :=
  dedupKeepPy (l.filter (fun v => 1 < (l.filter (fun w => w = v)).length))

/-- A column on which pandas numeric comparisons succeed: only numbers and
missing values.  Any other cell makes the elementwise comparison raise
`TypeError`, which validator.py catches, skipping the whole check block. -/
def numClean (cells : List PyVal) : Bool :=
  cells.all (fun v =>
    match v with
    | .vnum _ => true
    | .na => true
    | _ => false)

/-- A column on which pandas datetime comparisons succeed (see `numClean`). -/
def dateClean (cells : List PyVal) : Bool :=
  cells.all (fun v =>
    match v with
    | .vdate _ => true
    | .na => true
    | _ => false)

/-- The numeric values of a column, missing entries skipped. -/
def decsOf (cells : List PyVal) : List Dec :=
  cells.filterMap (fun v =>
    match v with
    | .vnum q => some q
    | _ => none)

/-- Skip-missing sum of a column's numeric values. -/
def sumDecList (l : List Dec) : Dec := l.foldl Dec.add ⟨0, 0⟩

/-- `pd.to_numeric(cell, errors='coerce')` on an already-loaded cell. -/
def coerceNum (v : PyVal) : PyVal :=
  match v with
  | .vnum q => .vnum q
  | .vstr s =>
    match parseDecimal (strStrip s) with
    | some d => .vnum d
    | none => .na
  | _ => .na

/-- One iteration of validator.py's date loop (lines 113-139) for column `c`:
the future-move-in warning (only when `c` is `move_in`), then the
move-out-before-move-in error and penalty, re-run on every present date
column; a column whose cells would make the comparison raise aborts the
iteration at that point (the `except` clause).  Returns
`(warnings, errors, penalty)`. -/
def dateIter (now : ℤ) (df : DF) (unitPresent : Bool) (c : String) :
    List VMsg × List VMsg × ℤ :=
  if df.cols.contains c then
    let miC := df.colVals "move_in"
    let moC := df.colVals "move_out"
    let bothPresent := df.cols.contains "move_in" && df.cols.contains "move_out"
    let mismatchRows := df.rows.filter (fun r =>
      match df.getVal "move_out" r, df.getVal "move_in" r with
      | .vdate o, .vdate i => o < i
      | _, _ => false)
    let mismatchMsgs : List VMsg :=
      if mismatchRows.isEmpty then []
      else [VMsg.moveOutBeforeMoveIn
        (if unitPresent then (mismatchRows.map (fun r => df.getVal "unit" r)).take 5 else [])]
    let mismatchPen : ℤ := if mismatchRows.isEmpty then 0 else data_quality_penalties.date_mismatch
    if c = "move_in" then
      if dateClean miC then
        let futRows := df.rows.filter (fun r =>
          match df.getVal "move_in" r with
          | .vdate d => now < d
          | _ => false)
        let wf : List VMsg :=
          if futRows.isEmpty then []
          else [VMsg.futureMoveIn
            (if unitPresent then (futRows.map (fun r => df.getVal "unit" r)).take 5 else [])]
        if bothPresent then
          if dateClean moC then (wf, mismatchMsgs, mismatchPen) else (wf, [], 0)
        else (wf, [], 0)
      else ([], [], 0)
    else
      if bothPresent then
        if dateClean miC && dateClean moC then ([], mismatchMsgs, mismatchPen)
        else ([], [], 0)
      else ([], [], 0)
  else ([], [], 0)

/-- The `(avg, total)` statistics of a numeric column (validator.py lines
170-183): absent column or an exception-raising dtype yields no keys; an
all-missing column has a `NaN` mean; the total is `round(sum, 2)`. -/
def colStats (df : DF) (c : String) : Option Dec × Option Dec :=
  if df.cols.contains c && numClean (df.colVals c) then
    let ds := decsOf (df.colVals c)
    ((if ds.isEmpty then none else some (Dec.roundDiv2 (sumDecList ds) ds.length)),
     some (Dec.roundDiv2 (sumDecList ds) 1))
  else (none, none)

/-- The sq-ft statistics (validator.py lines 186-192), which re-coerce the
column with `errors='coerce'` and therefore never raise. -/
def colStatsCoerced (df : DF) (c : String) : Option Dec × Option Dec :=
  if df.cols.contains c then
    let ds := decsOf ((df.colVals c).map coerceNum)
    ((if ds.isEmpty then none else some (Dec.roundDiv2 (sumDecList ds) ds.length)),
     some (Dec.roundDiv2 (sumDecList ds) 1))
  else (none, none)

/-- The body of `validator.validate_rent_roll` (lines 22-207), check for
check in source order, with the config constants in scope.  `now` is
`pd.Timestamp.now()`. -/
def validate_rent_roll_body (now : ℤ) (df : DF) : ValidationReport :=
  let p := data_quality_penalties
  -- required columns, lines 35-40
  let missing_cols := REQUIRED_COLUMNS.filter (fun c => !(df.cols.contains c))
  let w1 : List VMsg :=
    if missing_cols.isEmpty then [] else [VMsg.missingExpectedColumns missing_cols]
  let s1 : ℤ := if missing_cols.isEmpty then 0 else min p.missing_required_columns 10
  -- unit checks, lines 43-58
  let unitPresent := df.cols.contains "unit"
  let unitVals := df.colVals "unit"
  let hasNaUnit := unitVals.any (fun v => v = PyVal.na)
  let e2 : List VMsg :=
    if unitPresent then (if hasNaUnit then [VMsg.missingUnitNumbers] else [])
    else [VMsg.noUnitColumn]
  let s2 : ℤ :=
    if unitPresent then (if hasNaUnit then p.missing_unit_numbers else 0)
    else p.missing_required_columns
  let dups := dupVals unitVals
  let w2 : List VMsg :=
    if unitPresent && !dups.isEmpty then [VMsg.duplicateUnits (dups.take 10)] else []
  let s2b : ℤ := if unitPresent && !dups.isEmpty then p.duplicate_units else 0
  -- market rent, lines 61-78
  let mrOk := df.cols.contains "market_rent" && numClean (df.colVals "market_rent")
  let negRows := df.rows.filter (fun r =>
    match df.getVal "market_rent" r with
    | .vnum q => q.ltb ⟨0, 0⟩
    | _ => false)
  let w3 : List VMsg :=
    if mrOk && !negRows.isEmpty then
      [VMsg.negativeMarketRent
        (if unitPresent then some (negRows.map (fun r => df.getVal "unit" r)) else none)]
    else []
  let s3 : ℤ := if mrOk && !negRows.isEmpty then p.negative_market_rent else 0
  let highRows := df.rows.filter (fun r =>
    match df.getVal "market_rent" r with
    | .vnum q => max_reasonable_rent.ltb q
    | _ => false)
  let w4 : List VMsg :=
    if mrOk && !highRows.isEmpty then
      [VMsg.unusuallyHighRent
        (if unitPresent then some ((highRows.map (fun r => df.getVal "unit" r)).take 5) else none)]
    else []
  let s4 : ℤ := if mrOk && !highRows.isEmpty then p.unrealistic_values else 0
  -- square footage, lines 81-109 (object dtype is first coerced in place)
  let sfPresent := df.cols.contains "sq_ft"
  let df2 :=
    if sfPresent && (df.colVals "sq_ft").any (fun v =>
        match v with
        | .vstr _ => true
        | _ => false)
    then df.mapCol "sq_ft" coerceNum else df
  let sfOk := sfPresent && numClean (df2.colVals "sq_ft")
  let invalidRows := df2.rows.filter (fun r =>
    match df2.getVal "sq_ft" r with
    | .vnum q => q.ltb min_reasonable_sqft
    | .na => true
    | _ => false)
  let w5 : List VMsg :=
    if sfOk && !invalidRows.isEmpty then
      [VMsg.invalidSqft
        (if unitPresent then (invalidRows.map (fun r => df2.getVal "unit" r)).take 5 else [])]
    else []
  let s5 : ℤ := if sfOk && !invalidRows.isEmpty then min p.invalid_sqft 5 else 0
  let hugeRows := df2.rows.filter (fun r =>
    match df2.getVal "sq_ft" r with
    | .vnum q => max_reasonable_sqft.ltb q
    | _ => false)
  let w6 : List VMsg :=
    if sfOk && !hugeRows.isEmpty then
      [VMsg.hugeSqft
        (if unitPresent then (hugeRows.map (fun r => df2.getVal "unit" r)).take 5 else [])]
    else []
  -- dates, lines 112-139
  let dRes := dateColsList.map (fun c => dateIter now df2 unitPresent c)
  let w7 := (dRes.map (fun t => t.1)).flatten
  let e7 := (dRes.map (fun t => t.2.1)).flatten
  let s7 := (dRes.map (fun t => t.2.2)).foldl (· + ·) 0
  -- statistics, lines 142-192
  let total := df2.rows.length
  let occPresent := df2.cols.contains "occupancy_status"
  let rnPresent := df2.cols.contains "resident_name"
  let rcPresent := df2.cols.contains "resident_code"
  let vacant : ℕ :=
    if occPresent then
      ((df2.colVals "occupancy_status").filter (fun v => v = PyVal.vstr "Vacant")).length
    else if rnPresent then
      ((df2.colVals "resident_name").filter (fun v => v = PyVal.na)).length
    else if rcPresent then
      ((df2.colVals "resident_code").filter (fun v => v = PyVal.na)).length
    else 0
  let occupied : ℕ :=
    if occPresent then
      ((df2.colVals "occupancy_status").filter (fun v => v = PyVal.vstr "Occupied")).length
    else if rnPresent || rcPresent then total - vacant
    else 0
  let rate : Dec :=
    if 0 < total then Dec.roundDiv2 ⟨(occupied : ℤ) * 100, 0⟩ (total : ℤ) else ⟨0, 0⟩
  let mr := colStats df2 "market_rent"
  let ar := colStats df2 "rent"
  let sf := colStatsCoerced df2 "sq_ft"
  { errors := e2 ++ e7,
    warnings := w1 ++ w2 ++ w3 ++ w4 ++ w5 ++ w6 ++ w7,
    statistics :=
      { total_units := total, occupied_units := occupied, vacant_units := vacant,
        occupancy_rate := rate,
        avg_market_rent := mr.1, total_market_rent := mr.2,
        avg_actual_rent := ar.1, total_actual_rent := ar.2,
        avg_sq_ft := sf.1, total_sq_ft := sf.2 },
    data_quality_score := max 0 (100 - s1 - s2 - s2b - s3 - s4 - s5 - s7),
    available_columns := df2.cols,
    row_count := total }

/-- The names bound at module level of validator.py: its imports (lines 6-9)
and its own definitions.  `VALIDATION_THRESHOLDS` and `REQUIRED_COLUMNS` are
not among them — validator.py never imports them from `src.config`. -/
def validatorModuleGlobals : List String :=
  ["pd", "np", "Dict", "List", "Any", "logging", "logger",
   "validate_rent_roll", "generate_validation_summary"]

/-- `validator.validate_rent_roll` as it actually executes: its first
statement (line 29) reads the module-global name `VALIDATION_THRESHOLDS`,
which is unbound in validator.py, so every call raises `NameError` before any
check runs. -/
def validate_rent_roll (now : ℤ) (df : DF) : Except PyExc ValidationReport :=
  if "VALIDATION_THRESHOLDS" ∈ validatorModuleGlobals then
    Except.ok (validate_rent_roll_body now df)
  else Except.error PyExc.nameError

/-- `validate_rent_roll` with the missing `from src.config import ...`
supplied: the body executes with config.py's constants in scope. -/
def validate_rent_roll_with_config (now : ℤ) (df : DF) : ValidationReport :=
  validate_rent_roll_body now df

/-- C3's wide table: required columns all present, every unit non-null, sq_ft
within bounds, dates consistent and in the past — the only defects are the
duplicated unit `101` and unit `102`'s negative market rent. -/
def c3df : DF :=
  { cols := ["unit", "unit_type", "sq_ft", "market_rent", "move_in", "move_out"],
    rows := [
      [.vstr "101", .vstr "1BR", .vnum ⟨800, 0⟩, .vnum ⟨1200, 0⟩, .vdate 20230101, .na],
      [.vstr "101", .vstr "1BR", .vnum ⟨800, 0⟩, .vnum ⟨1300, 0⟩, .vdate 20230201, .na],
      [.vstr "102", .vstr "2BR", .vnum ⟨900, 0⟩, .vnum ⟨-50, 0⟩, .vdate 20220501, .na]] }

/-- The processing time for the C3 run (June 1, 2024, after every move-in). -/
def c3now : ℤ := 20240601

/-! ## `src/format_detector.py` -/

/-- One entry of format_detector.py's `FORMAT_PROFILES` (the module-level
registry used by `detect_format`, lines 15-207 — distinct from config.py's
smaller copy). -/
structure FormatProfile where
  identifiers : List String
  header_markers : List String
  section_markers : List String
  specific_patterns : List String
  column_patterns : List String
  date_format : String
  currency_format : String
  has_subtotals : Bool
  has_two_row_header : Bool
  column_mappings : List (String × String)
deriving DecidableEq, Repr

/-- format_detector.py lines 16-65. -/
def yardiProfile : FormatProfile :=
  { identifiers := ["yardi", "voyager", "rent roll report"],
    header_markers := ["unit", "unit type", "resident"],
    section_markers := ["current/notice/vacant residents", "current/notice/vacant",
      "current residents", "current / notice / vacant residents"],
    specific_patterns := ["unit,unit type,sq ft,resident,name",
      "unit,unit type,unit,resident,name",
      "unit\\s+unit\\s+type\\s+sq\\s+ft\\s+resident",
      "unit.*unit\\s+type.*resident",
      "current/notice/vacant residents",
      "current / notice / vacant residents",
      "summary groups",
      "future residents/applicants",
      "future residents / applicants",
      "rent roll with lease charges",
      "rent roll report",
      "charge code",
      "resident deposit",
      "other deposit",
      "move-in",
      "lease expiration"],
    column_patterns := ["charge_code", "resident_deposit", "other_deposit",
      "move_in", "lease_expiration"],
    date_format := "%m/%d/%Y", currency_format := "parentheses",
    has_subtotals := true, has_two_row_header := true,
    column_mappings := [("unit_sq_ft", "sq_ft"), ("unit_sqft", "sq_ft"),
      ("name", "resident_name"), ("resident", "resident_code")] }

/-- format_detector.py lines 66-103. -/
def realpageProfile : FormatProfile :=
  { identifiers := ["realpage", "onesite", "site name", "property name"],
    header_markers := ["unit", "resident", "lease"],
    section_markers := ["resident list", "current residents", "occupied units"],
    specific_patterns := ["unit,floorplan,resident,lease start,lease end",
      "unit,floor plan,resident", "property summary report",
      "resident aging summary", "unit status report", "lease start",
      "lease end", "floor plan"],
    column_patterns := ["floorplan", "floor_plan", "lease_start", "lease_end"],
    date_format := "%Y-%m-%d", currency_format := "minus",
    has_subtotals := true, has_two_row_header := true,
    column_mappings := [("apartment", "unit"), ("tenant", "resident_name"),
      ("lease_start", "move_in"), ("lease_end", "lease_expiration"),
      ("square_feet", "sq_ft"), ("floor_plan", "unit_type"), ("floorplan", "unit_type")] }

/-- format_detector.py lines 104-138. -/
def appfolioProfile : FormatProfile :=
  { identifiers := ["appfolio", "property management", "buildium"],
    header_markers := ["unit", "tenant", "rent"],
    section_markers := ["occupied units", "vacant units", "all units"],
    specific_patterns := ["unit,tenant,rent,security deposit",
      "unit,tenant,lease start,lease end,rent", "unit,building,tenant,rent",
      "security deposit", "pet deposit", "monthly rent"],
    column_patterns := ["tenant", "security_deposit", "pet_deposit", "monthly_rent"],
    date_format := "%m/%d/%Y", currency_format := "minus",
    has_subtotals := false, has_two_row_header := false,
    column_mappings := [("tenant", "resident_name"), ("rent", "market_rent"),
      ("monthly_rent", "market_rent"), ("security_deposit", "resident_deposit"),
      ("lease_start", "move_in"), ("lease_end", "lease_expiration")] }

/-- format_detector.py lines 139-173. -/
def entrataProfile : FormatProfile :=
  { identifiers := ["entrata", "lease summary", "property solutions"],
    header_markers := ["apartment", "resident", "lease term"],
    section_markers := ["current residents", "notice residents", "vacant apartments"],
    specific_patterns := ["apartment,resident,lease from,lease to",
      "apartment,floor plan,resident", "unit status report", "resident summary",
      "lease from", "lease to", "notice date"],
    column_patterns := ["apartment", "lease_from", "lease_to", "notice_date"],
    date_format := "%m/%d/%Y", currency_format := "parentheses",
    has_subtotals := true, has_two_row_header := true,
    column_mappings := [("apartment", "unit"), ("resident", "resident_name"),
      ("lease_from", "move_in"), ("lease_to", "lease_expiration"),
      ("unit_sqft", "sq_ft")] }

/-- format_detector.py lines 174-206. -/
def mriProfile : FormatProfile :=
  { identifiers := ["mri", "management reports", "mri software"],
    header_markers := ["unit code", "tenant name", "lease from"],
    section_markers := ["residential units", "commercial units", "retail units"],
    specific_patterns := ["unit code,tenant name,lease from,lease to",
      "unit code,unit type,tenant", "property rent roll", "tenant name", "unit code"],
    column_patterns := ["unit_code", "tenant_name", "lease_from", "lease_to"],
    date_format := "%d-%b-%Y", currency_format := "minus",
    has_subtotals := true, has_two_row_header := false,
    column_mappings := [("unit_code", "unit"), ("tenant_name", "resident_name"),
      ("lease_from", "move_in"), ("lease_to", "lease_expiration"),
      ("unit_area", "sq_ft")] }

/-- The registry in dict insertion order. -/
def FORMAT_PROFILES : List (String × FormatProfile) :=
  [("yardi", yardiProfile), ("realpage", realpageProfile),
   ("appfolio", appfolioProfile), ("entrata", entrataProfile), ("mri", mriProfile)]

/-- Collapse whitespace runs to one space (`re.sub(r'\s+', ' ', text)`);
the flag records whether the previous character was whitespace. -/
def collapseWsGo : Bool → List Char → List Char
  | _, [] => []
  | prev, c :: t =>
    if pySpace c then
      (if prev then collapseWsGo true t else ' ' :: collapseWsGo true t)
    else c :: collapseWsGo false t

/-- A character kept by `re.sub(r'[^\w\s/\-,]', '', text)`. -/
def keepCleanChar (c : Char) : Bool :=
  c.isAlphanum || c = '_' || pySpace c || c = '/' || c = '-' || c = ','

/-- `format_detector.clean_text_for_comparison` (lines 210-227): lowercase and
strip, collapse whitespace runs, drop characters outside the whitelist. -/
def clean_text_for_comparison (text : String) : String :=
  String.mk ((collapseWsGo false (strStrip (strLower text)).data).filter keepCleanChar)

/-- One specific-pattern test of `detect_format` (lines 386-400): a pattern
whose text starts with the letter `r` is fed to `re.search(pattern[1:], ...)`
— every such tail in the registry is a literal string, so this is substring
search on the raw text; any other pattern is cleaned and substring-searched. -/
def scoreSpecific (searchText pattern : String) : Bool :=
  match pattern.data with
  | 'r' :: tl => strContains searchText (String.mk tl)
  | _ => strContains searchText (clean_text_for_comparison pattern)

/-- The weighted score one profile receives from `detect_format`
(lines 382-431): specific patterns 5, column patterns 2, section markers 4
(cleaned), identifiers 3 (raw), header markers 1 (cleaned). -/
def profileScore (searchText : String) (p : FormatProfile) : ℕ :=
  5 * (p.specific_patterns.filter (fun x => scoreSpecific searchText x)).length +
  2 * (p.column_patterns.filter (fun x => strContains searchText x)).length +
  4 * (p.section_markers.filter (fun m => strContains searchText (clean_text_for_comparison m))).length +
  3 * (p.identifiers.filter (fun i => strContains searchText i)).length +
  1 * (p.header_markers.filter (fun m => strContains searchText (clean_text_for_comparison m))).length

/-- The `markers_found` list of one profile, in scan order. -/
def profileMarkers (searchText : String) (p : FormatProfile) : List String :=
  (p.specific_patterns.filter (fun x => scoreSpecific searchText x)).map (fun x => "pattern: " ++ x) ++
  (p.column_patterns.filter (fun x => strContains searchText x)).map (fun x => "column: " ++ x) ++
  (p.section_markers.filter (fun m => strContains searchText (clean_text_for_comparison m))).map
    (fun x => "section: " ++ x) ++
  (p.identifiers.filter (fun i => strContains searchText i)).map (fun x => "identifier: " ++ x) ++
  (p.header_markers.filter (fun m => strContains searchText (clean_text_for_comparison m))).map
    (fun x => "header: " ++ x)

/-- The dictionary `detect_format` returns (debug detail omitted; it repeats
the same scores and does not influence the result). -/
structure DetectionResult where
  format : String
  confidence : ℕ
  profile : Option FormatProfile
  detected_markers : List String
deriving DecidableEq, Repr

/-- `format_scores` in registry order. -/
def profileScores (s : String) : List (String × ℕ) :=
  FORMAT_PROFILES.map (fun pr => (pr.1, profileScore s pr.2))

/-- Python's `max(..., key=score)`: keep the current item, replacing it only
on a strictly greater score — so the first of equal maxima wins. -/
def pythonMax (a : String × ℕ) : List (String × ℕ) → String × ℕ
  | [] => a
  | b :: l => pythonMax (if a.2 < b.2 then b else a) l

/-- `best_match` of detect_format line 434. -/
def bestFormatPair (s : String) : String × ℕ :=
  match profileScores s with
  | [] => ("generic", 0)
  | a :: l => pythonMax a l

/-- The profile registry lookup `FORMAT_PROFILES[name]`. -/
def lookupProfile (name : String) : Option FormatProfile :=
  (FORMAT_PROFILES.find? (fun pr => pr.1 = name)).map (fun pr => pr.2)

/-- The markers of the winning profile. -/
def bestMarkers (s : String) (name : String) : List String :=
  match lookupProfile name with
  | some p => profileMarkers s p
  | none => []

/-- `detect_format`'s decision on the assembled search text (lines 344-466):
scores at or above `MIN_DETECTION_SCORE = 3` give `min 100 (score*5)`
confidence; positive scores below it still return the best guess with
`min 30 (score*5)`; only a winning score of exactly 0 keeps the initialised
`generic`/0 result. -/
def detect_format_core (searchText : String) : DetectionResult :=
  if 3 ≤ (bestFormatPair searchText).2 then
    { format := (bestFormatPair searchText).1,
      confidence := min 100 ((bestFormatPair searchText).2 * 5),
      profile := lookupProfile (bestFormatPair searchText).1,
      detected_markers := bestMarkers searchText (bestFormatPair searchText).1 }
  else if 0 < (bestFormatPair searchText).2 then
    { format := (bestFormatPair searchText).1,
      confidence := min 30 ((bestFormatPair searchText).2 * 5),
      profile := lookupProfile (bestFormatPair searchText).1,
      detected_markers := bestMarkers searchText (bestFormatPair searchText).1 }
  else
    { format := "generic", confidence := 0, profile := none, detected_markers := [] }

/-- Join text parts with newlines, as `'\n'.join(parts)`. -/
def joinNl (parts : List String) : String :=
  String.mk (((parts.map (fun s => s.data)).intersperse ['\n']).flatten)

/-- The search-corpus assembly of `detect_format` (lines 352-371): the cleaned
filename, the cleaned first 10,000 characters of raw content, and the
already-cleaned grid text, newline-joined and lowered; empty strings are
falsy in Python and contribute nothing. -/
def buildSearchText (file_content dfText filename : Option String) : String :=
  let parts :=
    (match filename with
     | some f => if f = "" then [] else [clean_text_for_comparison f]
     | none => []) ++
    (match file_content with
     | some ct => if ct = "" then [] else [clean_text_for_comparison (String.mk (ct.data.take 10000))]
     | none => []) ++
    (match dfText with
     | some t => [t]
     | none => [])
  strLower (joinNl parts)

/-- `format_detector.detect_format`. -/
def detect_format (file_content dfText filename : Option String) : DetectionResult :=
  detect_format_core (buildSearchText file_content dfText filename)

/-- `find?` for the first profile with a given score. -/
def firstWithScore (l : List (String × ℕ)) (m : ℕ) : Option (String × ℕ) :=
  l.find? (fun x => x.2 == m)

/-! ## `src/data_loader.py` -/

/-- Join strings with a one-character separator. -/
def joinSep (sep : Char) (parts : List String) : String :=
  String.mk (((parts.map (fun s => s.data)).intersperse [sep]).flatten)

/-- A decoded spreadsheet grid as `pd.read_excel(..., header=None)` yields it:
`ncols` columns labelled `0..ncols-1`, cells either text or missing. -/
structure Grid where
  ncols : ℕ
  cells : List (List (Option String))
deriving DecidableEq, Repr

/-- Row `i` of the grid. -/
def gridRow (g : Grid) (i : ℕ) : List (Option String) := g.cells.getD i []

/-- A row padded to the grid's width (pandas pads ragged rows with `NaN`). -/
def rowCells (g : Grid) (r : List (Option String)) : List (Option String) :=
  (List.range g.ncols).map (fun j => r.getD j none)

/-- `format_detector.extract_text_from_dataframe` (lines 230-253): the cleaned
column labels, then for each of the first `maxRows` rows its non-missing cell
texts cleaned and joined both space- and comma-separated. -/
def extract_text_from_dataframe (g : Grid) (maxRows : ℕ) : String :=
  let colText := joinSep ' ' ((List.range g.ncols).map (fun i =>
    clean_text_for_comparison (toString i)))
  let rowParts := ((List.range (min maxRows g.cells.length)).map (fun i =>
    let vals := (rowCells g (gridRow g i)).filterMap id
    [joinSep ' ' (vals.map clean_text_for_comparison),
     joinSep ',' (vals.map clean_text_for_comparison)])).flatten
  joinNl (colText :: rowParts)

/-- `detect_format(df=df)`: detection over the grid's extracted text (an empty
frame contributes nothing, `detect_format` lines 366-368 with
`max_rows=30`). -/
def detect_format_grid (g : Grid) : DetectionResult :=
  detect_format none
    (if g.cells.isEmpty || g.ncols == 0 then none
     else some (extract_text_from_dataframe g 30)) none

/-- `' '.join(str(val).lower() for val in df.iloc[idx].values if pd.notna(val))`
(data_loader.py lines 51, 71, 147, 162). -/
def rowStrLower (g : Grid) (i : ℕ) : String :=
  joinSep ' ' (((rowCells g (gridRow g i)).filterMap id).map strLower)

/-- data_loader.py lines 44-48. -/
def yardi_header_indicators : List (List String) :=
  [["unit", "type", "resident"],
   ["unit", "type", "sq", "resident"],
   ["unit", "resident", "name"]]

/-- data_loader.py line 68. -/
def header_keywords : List String := ["unit", "resident", "tenant", "apartment", "rent"]

/-- Strategy 1 (lines 40-61): the first of the first 20 rows containing every
token of some Yardi indicator set. -/
def excelYardiHeaderIdx (g : Grid) : Option ℕ :=
  (List.range (min 20 g.cells.length)).find? (fun i =>
    yardi_header_indicators.any (fun ind =>
      ind.all (fun t => strContains (rowStrLower g i) t)))

/-- Strategy 2 (lines 64-80): the first of the first 20 rows containing at
least two of the generic header keywords. -/
def excelGenericHeaderIdx (g : Grid) : Option ℕ :=
  (List.range (min 20 g.cells.length)).find? (fun i =>
    2 ≤ (header_keywords.filter (fun k => strContains (rowStrLower g i) k)).length)

/-- The header-row index the Excel path settles on (lines 40-86): the Yardi
strategy when the detected format is `yardi`, else the generic strategy, and
— when neither finds anything — the logged fallback to row 0; this step never
fails. -/
def excelHeaderRowIdx (g : Grid) (fi : DetectionResult) : ℕ :=
  match (if fi.format = "yardi" then excelYardiHeaderIdx g else none) with
  | some i => i
  | none =>
    match excelGenericHeaderIdx g with
    | some i => i
    | none => 0

/-- The two-row header combination of one column position (lines 110-128). -/
def combineHeaderCell (i : ℕ) (h1 h2 : String) : String :=
  if h1 ≠ "" ∧ h2 ≠ "" ∧ h1 ≠ h2 then
    (if strLower h1 ∈ (["unit", "resident", "charge"] : List String) ∧
        ¬ strLower h2 ∈ (["", "nan"] : List String) then
      strStrip (h1 ++ " " ++ h2)
    else (if strLower h1 ≠ "nan" then h1 else h2))
  else if h1 ≠ "" ∧ strLower h1 ≠ "nan" then h1
  else if h2 ≠ "" ∧ strLower h2 ≠ "nan" then h2
  else "column_" ++ toString i

/-- `config.DATA_END_MARKERS` (config.py lines 206-213). -/
def DATA_END_MARKERS : List String :=
  ["summary groups", "future residents/applicants", "totals", "grand total",
   "property totals", "portfolio summary"]

/-- A located table: reconstructed column names over the extracted data rows. -/
structure RawTable where
  cols : List String
  rows : List (List (Option String))
deriving DecidableEq, Repr

/-- data_loader.py line 297: `col.lower().strip().replace('  ', ' ').replace(' ', '_')`;
Python `replace` rewrites non-overlapping occurrences left to right. -/
def replaceTwoSpaces : List Char → List Char
  | [] => []
  | ' ' :: ' ' :: t => ' ' :: replaceTwoSpaces t
  | c :: t => c :: replaceTwoSpaces t

/-- See `replaceTwoSpaces`. -/
def normColName (c : String) : String :=
  String.mk ((replaceTwoSpaces (strStrip (strLower c)).data).map
    (fun ch => if ch = ' ' then '_' else ch))

/-- `orig.replace('_', ' ').replace(' ', '_')`: spaces become underscores,
underscores survive the round trip. -/
def undNorm (o : String) : String :=
  String.mk (o.data.map (fun c => if c = ' ' then '_' else c))

/-- `s.replace('_', ' ')` for the underscore-insensitive comparison. -/
def underscoresToSpaces (s : String) : String :=
  String.mk (s.data.map (fun c => if c = '_' then ' ' else c))

/-- Python dict assignment on an association list: overwrite in place or
append. -/
def insertAssoc (m : List (String × String)) (kv : String × String) : List (String × String) :=
  if m.any (fun e => e.1 = kv.1) then m.map (fun e => if e.1 = kv.1 then kv else e)
  else m ++ [kv]

/-- data_loader.py lines 323-341. -/
def standard_mappings : List (String × String) :=
  [("unit_sq_ft", "sq_ft"), ("unit_sqft", "sq_ft"), ("square_feet", "sq_ft"),
   ("square_footage", "sq_ft"), ("apartment", "unit"), ("apt", "unit"),
   ("unit_number", "unit"), ("tenant", "resident_name"), ("tenant_name", "resident_name"),
   ("name", "resident_name"), ("monthly_rent", "market_rent"), ("rent_amount", "market_rent"),
   ("move_in_date", "move_in"), ("movein_date", "move_in"),
   ("lease_end", "lease_expiration"), ("lease_end_date", "lease_expiration"),
   ("expiration", "lease_expiration")]

/-- `data_loader.normalize_column_names` (lines 292-362): clean every name,
apply the profile's rename table (direct or underscore-insensitive matches,
assembled as a dict), apply the universal fallback table, and finally rename
the first `unit`-containing column to `unit` when no column is literally
`unit` (when none exists at all the function only logs). -/
def normalize_column_names (t : RawTable) (profile? : Option FormatProfile) : RawTable :=
  let cols1 := t.cols.map normColName
  let cols2 :=
    match profile? with
    | some p =>
      let reverseMapping := p.column_mappings.foldl (fun acc kv =>
        if cols1.contains kv.1 then insertAssoc acc kv
        else if cols1.contains (undNorm kv.1) then
          match cols1.find? (fun col => underscoresToSpaces col = underscoresToSpaces kv.1) with
          | some col => insertAssoc acc (col, kv.2)
          | none => acc
        else acc) []
      if reverseMapping.isEmpty then cols1
      else cols1.map (fun c =>
        match reverseMapping.find? (fun e => e.1 = c) with
        | some e => e.2
        | none => c)
    | none => cols1
  let cols3 := standard_mappings.foldl (fun acc kv =>
    if acc.contains kv.1 && !(acc.contains kv.2) then
      acc.map (fun c => if c = kv.1 then kv.2 else c)
    else acc) cols2
  let cols4 :=
    if cols3.contains "unit" then cols3
    else
      match cols3.filter (fun c => strContains (strLower c) "unit") with
      | [] => cols3
      | c0 :: _ => cols3.map (fun c => if c = c0 then "unit" else c)
  { cols := cols4, rows := t.rows }

/-- data_loader.py lines 88-191 after the header row index is fixed: build the
(possibly two-row) header, find the section-marker data start and the
end-marker data end, slice the rows, apply the header (padding placeholders on
a mismatch) and normalize the column names. -/
def excelAssemble (g : Grid) (p : FormatProfile) (hidx : ℕ) : RawTable :=
  let header1 := rowCells g (gridRow g hidx)
  let build : List String × ℕ :=
    if p.has_two_row_header = true ∧ hidx + 1 < g.cells.length then
      let h1strs := header1.map (fun c => c.getD "")
      let h2strs := (rowCells g (gridRow g (hidx + 1))).map (fun c => c.getD "")
      let row2str := joinSep ' ' ((h2strs.filter (fun s => !(strStrip s = ""))).map strLower)
      if (row2str.data.take 50).any Char.isDigit then
        (h1strs.map strStrip, hidx + 1)
      else
        ((List.range g.ncols).map (fun i =>
          combineHeaderCell i (strStrip (h1strs.getD i "")) (strStrip (h2strs.getD i ""))),
         hidx + 2)
    else
      ((List.range g.ncols).map (fun i =>
        match header1.getD i none with
        | some v => strStrip v
        | none => "column_" ++ toString i), hidx + 1)
  let dstart := build.2
  let combined := build.1
  let actualStart :=
    match (List.range' dstart (min (dstart + 10) g.cells.length - dstart)).find? (fun i =>
      p.section_markers.any (fun m =>
        strContains (clean_text_for_comparison (rowStrLower g i))
          (clean_text_for_comparison m))) with
    | some i => i + 1
    | none => dstart
  let dataEnd :=
    match (List.range' actualStart (g.cells.length - actualStart)).find? (fun i =>
      DATA_END_MARKERS.any (fun m => strContains (rowStrLower g i) m)) with
    | some i => i
    | none => g.cells.length
  let dataRows := ((g.cells.drop actualStart).take (dataEnd - actualStart)).map
    (fun r => rowCells g r)
  let cols :=
    if g.ncols ≤ combined.length then combined.take g.ncols
    else combined ++ (List.range' combined.length (g.ncols - combined.length)).map
      (fun i => "column_" ++ toString i)
  normalize_column_names { cols := cols, rows := dataRows } (some p)

/-- `data_loader.find_header_and_data_start_excel` (lines 17-191): re-detect
the format when none (or a generic one) was passed, pick the header row (with
the row-0 fallback — this path never fails for a missing header), then crash
with `AttributeError` at line 89 when the detection carries no profile
(`format_info.get('profile', {})` is `None` there), else assemble the table. -/
def find_header_and_data_start_excel (g : Grid) (fi? : Option DetectionResult) :
    Except PyExc RawTable :=
  let fi :=
    match fi? with
    | none => detect_format_grid g
    | some f => if f.format = "generic" then detect_format_grid g else f
  match fi.profile with
  | none => Except.error PyExc.attributeError
  | some p => Except.ok (excelAssemble g p (excelHeaderRowIdx g fi))

/-- The CSV header search (data_loader.py lines 202-235): format-specific
marker counting for a non-generic detection (crashing at line 214 when the
passed detection has no profile), then the generic `unit` + `resident`/
`tenant` scan, both over the first 20 lines. -/
def csvHeaderIdx (lines : List String) (fi? : Option DetectionResult) :
    Except PyExc (Option ℕ) :=
  let fmtRes : Except PyExc (Option ℕ) :=
    match fi? with
    | some f =>
      if f.format ≠ "generic" then
        match f.profile with
        | none => Except.error PyExc.attributeError
        | some p =>
          Except.ok ((List.range (min 20 lines.length)).find? (fun i =>
            2 ≤ (p.header_markers.filter (fun m =>
              strContains (strLower (strStrip (lines.getD i ""))) m)).length))
      else Except.ok none
    | none => Except.ok none
  match fmtRes with
  | Except.error e => Except.error e
  | Except.ok (some i) => Except.ok (some i)
  | Except.ok none =>
    Except.ok ((List.range (min 20 lines.length)).find? (fun i =>
      strContains (strLower (strStrip (lines.getD i ""))) "unit" &&
      (strContains (strLower (strStrip (lines.getD i ""))) "resident" ||
       strContains (strLower (strStrip (lines.getD i ""))) "tenant")))

/-- `data_loader.find_header_and_data_start_csv` (lines 194-289): when no
header line is found within the 20-line lookahead it raises
`ValueError("Could not find the header row in the CSV file.")`; otherwise it
combines the (possibly two-row) header, advances the data start past section
markers (the last match in the 10-line window wins — this loop has no outer
break) and returns `(header_idx, data_start_idx, combined_header)`. -/
def find_header_and_data_start_csv (lines : List String) (fi? : Option DetectionResult) :
    Except PyExc (ℕ × ℕ × List String) :=
  match csvHeaderIdx lines fi? with
  | Except.error e => Except.error e
  | Except.ok none => Except.error PyExc.valueError
  | Except.ok (some h) =>
    let hasTwoRes : Except PyExc Bool :=
      match fi? with
      | none => Except.ok true
      | some f =>
        match f.profile with
        | none => Except.error PyExc.attributeError
        | some p => Except.ok p.has_two_row_header
    match hasTwoRes with
    | Except.error e => Except.error e
    | Except.ok hasTwo =>
      let header1 := splitOnChar ',' (strStrip (lines.getD h ""))
      let build : List String × ℕ :=
        if hasTwo = true ∧ h + 1 < lines.length then
          let header2 := splitOnChar ',' (strStrip (lines.getD (h + 1) ""))
          let f0 := header2.headD ""
          if f0 ≠ "" ∧ (f0.data.take 10).any Char.isDigit then (header1, h + 1)
          else
            ((List.range (max header1.length header2.length)).map (fun i =>
              let h1 := if i < header1.length then strStrip (header1.getD i "") else ""
              let h2 := if i < header2.length then strStrip (header2.getD i "") else ""
              if h1 ≠ "" ∧ h2 ≠ "" then strStrip (h1 ++ " " ++ h2)
              else if h1 ≠ "" then h1
              else h2), h + 2)
        else (header1, h + 1)
      let dstart0 := build.2
      let dstart :=
        match fi? with
        | some f =>
          match f.profile with
          | some p =>
            (List.range' dstart0 (min (dstart0 + 10) lines.length - dstart0)).foldl
              (fun acc i =>
                if p.section_markers.any (fun m =>
                  strContains (clean_text_for_comparison (strLower (strStrip (lines.getD i ""))))
                    (clean_text_for_comparison m)) then i + 1 else acc) dstart0
          | none => dstart0
        | none => dstart0
      Except.ok (h, dstart, build.1)

/-- The C8 grid: three rows, none of which matches any header signature
(`charge code` is, however, a strong Yardi detection marker). -/
def c8grid : Grid :=
  { ncols := 3,
    cells := [
      [some "Charge Code", some "x", some "y"],
      [some "alpha", some "beta", some "gamma"],
      [some "1", some "2", some "3"]] }

/-- The C8 CSV lines: no line contains any header signature. -/
def c8lines : List String := ["hello,world", "foo,bar"]

/-! ## Supporting lemmas for the reshaper -/

theorem vstr_injective : Function.Injective PyVal.vstr := by
  intro a b h
  injection h

theorem rowGet_zero_headD (r : List PyVal) : rowGet r 0 = r.headD PyVal.na := by
  cases r <;> rfl

theorem headD_set_succ (r : List PyVal) (j : ℕ) (v : PyVal) :
    (r.set (j + 1) v).headD PyVal.na = r.headD PyVal.na := by
  cases r <;> rfl

theorem headD_append (r s : List PyVal) (h : r ≠ []) :
    (r ++ s).headD PyVal.na = r.headD PyVal.na := by
  cases r with
  | nil => exact absurd rfl h
  | cons a t => rfl

theorem set_ne_nil (r : List PyVal) (i : ℕ) (v : PyVal) (h : r ≠ []) :
    r.set i v ≠ [] := by
  cases r with
  | nil => exact absurd rfl h
  | cons a t => cases i <;> simp

theorem append_ne_nil_left (r s : List PyVal) (h : r ≠ []) : r ++ s ≠ [] := by
  cases r with
  | nil => exact absurd rfl h
  | cons a t => simp

theorem mem_insertSorted (x a : String) (l : List String) :
    a ∈ insertSorted x l ↔ a = x ∨ a ∈ l := by
  induction l with
  | nil => simp [insertSorted]
  | cons y t ih =>
    unfold insertSorted
    split
    · simp [List.mem_cons]
    · simp [List.mem_cons, ih]
      tauto

theorem nodup_insertSorted (x : String) (l : List String) (hl : l.Nodup) (hx : x ∉ l) :
    (insertSorted x l).Nodup := by
  induction l with
  | nil => simp [insertSorted]
  | cons y t ih =>
    rcases List.nodup_cons.mp hl with ⟨hyt, ht⟩
    have hxy : x ≠ y := by intro h; exact hx (by simp [h])
    have hxt : x ∉ t := by intro h; exact hx (List.mem_cons_of_mem _ h)
    unfold insertSorted
    split
    · refine List.nodup_cons.mpr ⟨?_, hl⟩
      simp [List.mem_cons, not_or]
      exact ⟨hxy, hxt⟩
    · refine List.nodup_cons.mpr ⟨?_, ih ht hxt⟩
      intro hmem
      rcases (mem_insertSorted x y t).mp hmem with h | h
      · exact hxy h.symm
      · exact hyt h

theorem mem_sortStrings (a : String) (l : List String) : a ∈ sortStrings l ↔ a ∈ l := by
  induction l with
  | nil => simp [sortStrings]
  | cons x t ih =>
    have hrw : sortStrings (x :: t) = insertSorted x (sortStrings t) := rfl
    rw [hrw, mem_insertSorted]
    simp [List.mem_cons, ih]

theorem nodup_sortStrings (l : List String) (hl : l.Nodup) : (sortStrings l).Nodup := by
  induction l with
  | nil => simp [sortStrings]
  | cons x t ih =>
    rcases List.nodup_cons.mp hl with ⟨hxt, ht⟩
    have hrw : sortStrings (x :: t) = insertSorted x (sortStrings t) := rfl
    rw [hrw]
    exact nodup_insertSorted x (sortStrings t) (ih ht)
      (fun h => hxt ((mem_sortStrings x t).mp h))

theorem nodup_dedupKeep_aux (l : List String) :
    ∀ acc : List String, acc.Nodup →
      (l.foldl (fun acc x => if x ∈ acc then acc else acc ++ [x]) acc).Nodup := by
  induction l with
  | nil => intro acc h; simpa using h
  | cons x t ih =>
    intro acc h
    rw [List.foldl_cons]
    split
    · exact ih acc h
    · rename_i hc
      apply ih
      rw [List.nodup_append]
      exact ⟨h, List.nodup_singleton x,
        fun a ha hax => by simp at hax; subst hax; exact hc ha⟩

theorem nodup_dedupKeep (l : List String) : (dedupKeep l).Nodup :=
  nodup_dedupKeep_aux l [] List.nodup_nil

theorem colIdxGo_cons_ne (c x : String) (t : List String) (h : x ≠ c) :
    colIdxGo c (x :: t) = (colIdxGo c t).map (· + 1) := by
  simp [colIdxGo, h]

theorem colIdxGo_unit_head (t : List String) :
    colIdxGo "unit" ("unit" :: t) = some 0 := by
  simp [colIdxGo]

theorem mapCol_cols (d : DF) (c : String) (f : PyVal → PyVal) :
    (d.mapCol c f).cols = d.cols := by
  unfold DF.mapCol
  cases d.colIdx c <;> rfl

theorem mapCol_heads (d : DF) (c : String) (f : PyVal → PyVal)
    (hinv : ∃ rest, d.cols = "unit" :: rest) (hc : c ≠ "unit") :
    headsOf (d.mapCol c f) = headsOf d := by
  obtain ⟨rest, hcols⟩ := hinv
  unfold DF.mapCol DF.colIdx
  rw [hcols, colIdxGo_cons_ne c "unit" rest (fun hh => hc hh.symm)]
  cases colIdxGo c rest with
  | none => rfl
  | some j =>
    unfold headsOf
    simp only [Option.map_some']
    rw [List.map_map]
    apply List.map_congr_left
    intro r _
    exact headD_set_succ r j _

theorem mapCol_rows_ne (d : DF) (c : String) (f : PyVal → PyVal)
    (h : ∀ r ∈ d.rows, r ≠ []) :
    ∀ r ∈ (d.mapCol c f).rows, r ≠ [] := by
  unfold DF.mapCol
  cases d.colIdx c with
  | none => exact h
  | some i =>
    intro r hr
    simp at hr
    obtain ⟨a, ha, rfl⟩ := hr
    exact set_ne_nil a i _ (h a ha)

theorem setCol_cols_head (d : DF) (c : String) (f : List PyVal → PyVal)
    (hinv : ∃ rest, d.cols = "unit" :: rest) :
    ∃ rest, (d.setCol c f).cols = "unit" :: rest := by
  obtain ⟨rest, hcols⟩ := hinv
  unfold DF.setCol
  cases d.colIdx c with
  | some i => exact ⟨rest, hcols⟩
  | none => exact ⟨rest ++ [c], by simp [hcols]⟩

theorem setCol_heads (d : DF) (c : String) (f : List PyVal → PyVal)
    (hinv : ∃ rest, d.cols = "unit" :: rest) (hne : ∀ r ∈ d.rows, r ≠ [])
    (hc : c ≠ "unit") :
    headsOf (d.setCol c f) = headsOf d := by
  obtain ⟨rest, hcols⟩ := hinv
  unfold DF.setCol DF.colIdx
  rw [hcols, colIdxGo_cons_ne c "unit" rest (fun hh => hc hh.symm)]
  cases colIdxGo c rest with
  | none =>
    unfold headsOf
    simp only [Option.map_none']
    rw [List.map_map]
    apply List.map_congr_left
    intro r hr
    exact headD_append r [f r] (hne r hr)
  | some j =>
    unfold headsOf
    simp only [Option.map_some']
    rw [List.map_map]
    apply List.map_congr_left
    intro r hr
    exact headD_set_succ r j _

theorem setCol_rows_ne (d : DF) (c : String) (f : List PyVal → PyVal)
    (h : ∀ r ∈ d.rows, r ≠ []) :
    ∀ r ∈ (d.setCol c f).rows, r ≠ [] := by
  unfold DF.setCol
  cases d.colIdx c with
  | some i =>
    intro r hr
    simp at hr
    obtain ⟨a, ha, rfl⟩ := hr
    exact set_ne_nil a i _ (h a ha)
  | none =>
    intro r hr
    simp at hr
    obtain ⟨a, ha, rfl⟩ := hr
    exact append_ne_nil_left a [f a] (h a ha)

theorem merge_heads (l r : DF) (h : ∀ row ∈ l.rows, row ≠ []) :
    headsOf (l.mergeLeftOnUnit r) = headsOf l := by
  unfold DF.mergeLeftOnUnit headsOf
  simp only [List.map_map]
  apply List.map_congr_left
  intro row hrow
  cases hfind : (r.rows.find? fun rr => r.getVal "unit" rr = l.getVal "unit" row) with
  | none => simp only [Function.comp, hfind]; exact headD_append _ _ (h row hrow)
  | some rr => simp only [Function.comp, hfind]; exact headD_append _ _ (h row hrow)

theorem merge_rows_ne (l r : DF) (h : ∀ row ∈ l.rows, row ≠ []) :
    ∀ row ∈ (l.mergeLeftOnUnit r).rows, row ≠ [] := by
  unfold DF.mergeLeftOnUnit
  intro row hrow
  simp at hrow
  obtain ⟨a, ha, rfl⟩ := hrow
  cases hfind : (r.rows.find? fun rr => r.getVal "unit" rr = l.getVal "unit" a) with
  | none => simp only [hfind]; exact append_ne_nil_left _ _ (h a ha)
  | some rr => simp only [hfind]; exact append_ne_nil_left _ _ (h a ha)

theorem foldl_fillna0_props (cs : List String) :
    ∀ d : DF, (∃ rest, d.cols = "unit" :: rest) → (∀ r ∈ d.rows, r ≠ []) →
      (∀ c ∈ cs, c ≠ "unit") →
      headsOf (cs.foldl (fun a c => a.fillna0 c) d) = headsOf d ∧
      (cs.foldl (fun a c => a.fillna0 c) d).cols = d.cols ∧
      (∀ r ∈ (cs.foldl (fun a c => a.fillna0 c) d).rows, r ≠ []) := by
  induction cs with
  | nil => intro d _ h2 _; exact ⟨rfl, rfl, h2⟩
  | cons c t ih =>
    intro d h1 h2 hcs
    rw [List.foldl_cons]
    have e1 : (d.fillna0 c).cols = d.cols := mapCol_cols d c _
    have e2 : headsOf (d.fillna0 c) = headsOf d :=
      mapCol_heads d c _ h1 (hcs c (List.mem_cons_self c t))
    have e3 : ∀ r ∈ (d.fillna0 c).rows, r ≠ [] := mapCol_rows_ne d c _ h2
    obtain ⟨a1, a2, a3⟩ := ih (d.fillna0 c) (by rw [e1]; exact h1) e3
      (fun x hx => hcs x (List.mem_cons_of_mem c hx))
    exact ⟨by rw [a1, e2], by rw [a2, e1], a3⟩

theorem groupby_heads (d : DF) (agg : List String) :
    headsOf (d.groupbyUnitFirst agg) =
      (sortStrings (dedupKeep (d.rows.filterMap (fun r => unitKey (d.getVal "unit" r))))).map
        PyVal.vstr := by
  unfold DF.groupbyUnitFirst headsOf
  simp only [List.map_map]
  apply List.map_congr_left
  intro k _
  rfl

theorem groupby_inv (d : DF) (agg : List String) : UnitHeadInv (d.groupbyUnitFirst agg) := by
  constructor
  · exact ⟨agg, rfl⟩
  · intro r hr
    unfold DF.groupbyUnitFirst at hr
    simp at hr
    obtain ⟨k, hk, rfl⟩ := hr
    simp

theorem chargePivotAssemble_props (cdf u : DF) (hinv : UnitHeadInv u) :
    headsOf (chargePivotAssemble cdf u) = headsOf u ∧
      UnitHeadInv (chargePivotAssemble cdf u) := by
  unfold chargePivotAssemble
  split
  · exact ⟨rfl, hinv⟩
  · obtain ⟨rest, hcols⟩ := hinv.head_unit
    have hmergecols :
        (u.mergeLeftOnUnit (pivotCleaned cdf)).cols
          = u.cols ++ (pivotCleaned cdf).cols.filter (fun c => c != "unit") := rfl
    have hhead : ∃ rest2, (u.mergeLeftOnUnit (pivotCleaned cdf)).cols = "unit" :: rest2 :=
      ⟨rest ++ (pivotCleaned cdf).cols.filter (fun c => c != "unit"), by
        rw [hmergecols, hcols]; rfl⟩
    have hne := merge_rows_ne u (pivotCleaned cdf) hinv.rows_ne
    have hcs : ∀ c ∈ (pivotCleaned cdf).cols.filter (fun c => c != "unit"), c ≠ "unit" := by
      intro c hcmem
      rw [List.mem_filter] at hcmem
      exact bne_iff_ne.mp hcmem.2
    obtain ⟨a1, a2, a3⟩ :=
      foldl_fillna0_props ((pivotCleaned cdf).cols.filter (fun c => c != "unit"))
        (u.mergeLeftOnUnit (pivotCleaned cdf)) hhead hne hcs
    refine ⟨?_, ⟨?_, a3⟩⟩
    · rw [a1]
      exact merge_heads u (pivotCleaned cdf) hinv.rows_ne
    · rw [a2]
      exact hhead

theorem chargeStep_props (d u : DF) (hinv : UnitHeadInv u) :
    headsOf (chargeStep d u) = headsOf u ∧ UnitHeadInv (chargeStep d u) := by
  unfold chargeStep
  split
  · exact chargePivotAssemble_props _ u hinv
  · exact ⟨rfl, hinv⟩

theorem cleanColsStep_props (d : DF) (hinv : UnitHeadInv d) :
    headsOf (cleanColsStep d) = headsOf d ∧ UnitHeadInv (cleanColsStep d) := by
  refine ⟨rfl, ?_, hinv.rows_ne⟩
  obtain ⟨rest, hc⟩ := hinv.head_unit
  refine ⟨rest.map finalColClean, ?_⟩
  unfold cleanColsStep
  rw [hc]
  simp only [List.map_cons]
  have : finalColClean "unit" = "unit" := by decide
  rw [this]

theorem addOccupancy_props (d : DF) (hinv : UnitHeadInv d) :
    headsOf (addOccupancy d) = headsOf d ∧ UnitHeadInv (addOccupancy d) := by
  have hO : ("occupancy_status" : String) ≠ "unit" := by decide
  unfold addOccupancy
  split
  · exact ⟨setCol_heads d _ _ hinv.head_unit hinv.rows_ne hO,
      setCol_cols_head d _ _ hinv.head_unit, setCol_rows_ne d _ _ hinv.rows_ne⟩
  · split
    · exact ⟨setCol_heads d _ _ hinv.head_unit hinv.rows_ne hO,
        setCol_cols_head d _ _ hinv.head_unit, setCol_rows_ne d _ _ hinv.rows_ne⟩
    · exact ⟨setCol_heads d _ _ hinv.head_unit hinv.rows_ne hO,
        setCol_cols_head d _ _ hinv.head_unit, setCol_rows_ne d _ _ hinv.rows_ne⟩

theorem addActualRent_props (d : DF) (hinv : UnitHeadInv d) :
    headsOf (addActualRent d) = headsOf d ∧ UnitHeadInv (addActualRent d) := by
  have hA : ("actual_rent" : String) ≠ "unit" := by decide
  unfold addActualRent
  split
  · exact ⟨setCol_heads d _ _ hinv.head_unit hinv.rows_ne hA,
      setCol_cols_head d _ _ hinv.head_unit, setCol_rows_ne d _ _ hinv.rows_ne⟩
  · split
    · exact ⟨rfl, hinv⟩
    · exact ⟨setCol_heads d _ _ hinv.head_unit hinv.rows_ne hA,
        setCol_cols_head d _ _ hinv.head_unit, setCol_rows_ne d _ _ hinv.rows_ne⟩

theorem assembled_units_nodup (d5 : DF) (aggCols : List String) :
    ((finalUnitFilter (addActualRent (addOccupancy (cleanColsStep
        (chargeStep d5 (d5.groupbyUnitFirst aggCols)))))).colVals "unit").Nodup := by
  have hkeys : (sortStrings (dedupKeep
      (d5.rows.filterMap (fun r => unitKey (d5.getVal "unit" r))))).Nodup :=
    nodup_sortStrings _ (nodup_dedupKeep _)
  have h0 := groupby_heads d5 aggCols
  have hinv0 := groupby_inv d5 aggCols
  obtain ⟨e1, hinv1⟩ := chargeStep_props d5 _ hinv0
  obtain ⟨e2, hinv2⟩ := cleanColsStep_props _ hinv1
  obtain ⟨e3, hinv3⟩ := addOccupancy_props _ hinv2
  obtain ⟨e4, hinv4⟩ := addActualRent_props _ hinv3
  obtain ⟨rest, hcols⟩ := hinv4.head_unit
  have hcv : (finalUnitFilter (addActualRent (addOccupancy (cleanColsStep
        (chargeStep d5 (d5.groupbyUnitFirst aggCols)))))).colVals "unit"
      = ((addActualRent (addOccupancy (cleanColsStep
          (chargeStep d5 (d5.groupbyUnitFirst aggCols))))).rows.filter
            (fun r =>
              match (addActualRent (addOccupancy (cleanColsStep
                (chargeStep d5 (d5.groupbyUnitFirst aggCols))))).getVal "unit" r with
              | .vstr s => !(invalidUnitStrings.contains s)
              | _ => true)).map (fun r => r.headD PyVal.na) := by
    unfold finalUnitFilter DF.filterRows DF.colVals DF.colIdx
    simp only [hcols, colIdxGo_unit_head]
    apply List.map_congr_left
    intro r _
    exact rowGet_zero_headD r
  rw [hcv]
  have hnodup : (headsOf (addActualRent (addOccupancy (cleanColsStep
      (chargeStep d5 (d5.groupbyUnitFirst aggCols)))))).Nodup := by
    rw [e4, e3, e2, e1, h0]
    exact hkeys.map vstr_injective
  exact hnodup.sublist
    (List.Sublist.map _ (List.filter_sublist _))

/-- The pivot's per-cell folded accumulation equals the skip-missing sum of
the amounts of exactly the rows of that `(unit, charge_code)` pair. -/
theorem pivotCellFold_eq_sumDecs (d : DF) (rows : List (List PyVal)) (u c : String) :
    pivotCellFold d rows u c =
      sumDecs ((rows.filter (fun r =>
        decide (d.getVal "unit" r = PyVal.vstr u ∧
                d.getVal "charge_code" r = PyVal.vstr c))).map
          (fun r => d.getVal "amount" r)) := by
  have H : ∀ (rs : List (List PyVal)) (acc : Dec),
      rs.foldl (fun acc r =>
        if d.getVal "unit" r = PyVal.vstr u ∧ d.getVal "charge_code" r = PyVal.vstr c then
          match d.getVal "amount" r with
          | PyVal.vnum q => acc.add q
          | _ => acc
        else acc) acc
      = ((rs.filter (fun r =>
          decide (d.getVal "unit" r = PyVal.vstr u ∧
                  d.getVal "charge_code" r = PyVal.vstr c))).map
            (fun r => d.getVal "amount" r)).foldl (fun a v =>
          match v with
          | PyVal.vnum q => a.add q
          | _ => a) acc := by
    intro rs
    induction rs with
    | nil => intro acc; rfl
    | cons r t ih =>
      intro acc
      by_cases hcond : d.getVal "unit" r = PyVal.vstr u ∧ d.getVal "charge_code" r = PyVal.vstr c
      · simp [List.foldl_cons, List.filter_cons, hcond, ih]
      · simp [List.foldl_cons, List.filter_cons, hcond, ih]
  exact H rows ⟨0, 0⟩

/-- C10: every successfully reshaped table has pairwise-distinct unit values —
grouping merges all rows sharing a unit string into one record, and every later
step (pivot join, renames, derived columns, the final sentinel re-filter)
preserves that distinctness. -/
theorem c10_reshaped_units_distinct (df out : DF)
    (h : process_rent_roll_vectorized df = Except.ok out) :
    (out.colVals "unit").Nodup := by
  unfold process_rent_roll_vectorized at h
  split at h
  · injection h with h2
    rw [← h2]
    simp [DF.colVals, DF.colIdx, colIdxGo]
  · cases hres : resolveUnitCol df with
    | error e =>
      rw [hres] at h
      simp at h
    | ok d0 =>
      rw [hres] at h
      simp only [] at h
      injection h with h2
      rw [← h2]
      exact assembled_units_nodup _ _

/-- C10 witness: a table whose unit `101` occurs twice reshapes to a table
whose unit values are pairwise distinct. -/
theorem c10_reshaped_units_distinct_witness :
    process_rent_roll_vectorized c10df = Except.ok c10out ∧ (c10out.colVals "unit").Nodup :=
  ⟨by decide, c10_reshaped_units_distinct c10df c10out (by decide)⟩

/-- C2: reshaping the two-block table `c2df` loses the move-out date.  The code
drops every row whose unit cell is blank (processing.py line 81) before any
grouping, so the move-out carried only on unit `101`'s second (blank-unit)
charge row is reported missing on `101`'s record — while the claim expects it
there; the adjacent unit `102` reports move-out missing, and no value crosses
the block boundary.  This is the evaluation of the code at the failing
input. -/
theorem c2_moveout_on_blank_unit_row_is_lost :
    process_rent_roll_vectorized c2df = Except.ok c2out ∧
    c2out.colVals "move_out" = [PyVal.na, PyVal.na] ∧
    (c2df.rows.getD 1 []).getD 3 PyVal.na = PyVal.vstr "2024-03-31" :=
  ⟨by decide, by decide, by decide⟩

/-- C4: currency cleaning maps `"$1,200.50"` to `1200.50` and `"(500)"` to
`-500`; the empty string and an unparseable string become missing, and a
missing amount contributes nothing to the aggregation sum wherever it sits. -/
theorem c4_currency_cleaning :
    clean_and_convert_cell (PyVal.vstr "$1,200.50") = PyVal.vnum ⟨12005, 1⟩ ∧
    Dec.toRat ⟨12005, 1⟩ = 1200.50 ∧
    clean_and_convert_cell (PyVal.vstr "(500)") = PyVal.vnum ⟨-500, 0⟩ ∧
    Dec.toRat ⟨-500, 0⟩ = -500 ∧
    clean_and_convert_cell (PyVal.vstr "") = PyVal.na ∧
    clean_and_convert_cell (PyVal.vstr "N/A") = PyVal.na ∧
    (∀ l₁ l₂ : List PyVal, sumDecs (l₁ ++ PyVal.na :: l₂) = sumDecs (l₁ ++ l₂)) := by
  refine ⟨by decide, by norm_num [Dec.toRat], by decide, by norm_num [Dec.toRat],
    by decide, by decide, ?_⟩
  intro l₁ l₂
  unfold sumDecs
  rw [List.foldl_append, List.foldl_append]
  rfl

/-- C5: two rows for unit `101` both coded `rent` with amounts `900` and `50`
pivot to a single `rent` column valued `950`; in general every pivot cell is
the skip-missing sum — not the last value — of its pair's amounts. -/
theorem c5_charge_pivot_sums_duplicates :
    process_rent_roll_vectorized c5df = Except.ok c5out ∧
    Dec.toRat ⟨950, 0⟩ = 900 + 50 ∧
    (∀ (d : DF) (rows : List (List PyVal)) (u c : String),
      pivotCellFold d rows u c =
        sumDecs ((rows.filter (fun r =>
          decide (d.getVal "unit" r = PyVal.vstr u ∧
                  d.getVal "charge_code" r = PyVal.vstr c))).map
            (fun r => d.getVal "amount" r))) :=
  ⟨by decide, by norm_num [Dec.toRat], pivotCellFold_eq_sumDecs⟩

/-- C6: a unit with an attribute row and no valid charge rows (unit `201`)
still appears after the left-join with its charge column zero-filled, and the
occupancy status is `Vacant` exactly when the resident-name field is missing,
blank, or one of `VACANT`/`NAN`/`NULL`/`NONE` case-insensitively, `Occupied`
otherwise. -/
theorem c6_vacant_unit_inclusion_and_occupancy :
    process_rent_roll_vectorized c6df = Except.ok c6out ∧
    c6out.colVals "rent" = [PyVal.vnum ⟨900, 0⟩, PyVal.vnum ⟨0, 0⟩] ∧
    c6out.colVals "occupancy_status" = [PyVal.vstr "Occupied", PyVal.vstr "Vacant"] ∧
    (∀ v : PyVal, occupancyOfCell v = "Vacant" ↔ vacantResidentField v) ∧
    (∀ v : PyVal, occupancyOfCell v = "Occupied" ↔ ¬ vacantResidentField v) := by
  refine ⟨by decide, by decide, by decide, ?_, ?_⟩
  · intro v
    unfold occupancyOfCell vacantResidentField
    split
    · rename_i h
      exact ⟨fun _ => h, fun _ => rfl⟩
    · rename_i h
      exact ⟨fun hv => absurd hv (by decide), fun hd => absurd hd h⟩
  · intro v
    unfold occupancyOfCell vacantResidentField
    split
    · rename_i h
      exact ⟨fun hv => absurd hv (by decide), fun hnv => absurd h hnv⟩
    · rename_i h
      exact ⟨fun _ => h, fun _ => rfl⟩

/-- C9 counterexample: on `c9df` there is no pivoted `rent` column, yet
`actual_rent` is `1200` (a copy of `market_rent`), not `0` — refuting the
claim's "equals 0 otherwise" at this explicit input. -/
theorem c9_actual_rent_counterexample :
    process_rent_roll_vectorized c9df = Except.ok c9out ∧
    c9out.cols.contains "rent" = false ∧
    c9out.colVals "actual_rent" = [PyVal.vnum ⟨1200, 0⟩] ∧
    PyVal.vnum ⟨1200, 0⟩ ≠ PyVal.vnum ⟨0, 0⟩ :=
  ⟨by decide, by decide, by decide, by decide⟩

/-- C9 amended: `actual_rent` equals the pivoted `rent` column when that
column is present; otherwise the code copies the first other column whose
lowered name contains `rent` (excluding `petrent`) — in practice
`market_rent`; and when no such column exists it creates no `actual_rent`
column at all.  It is never set to 0. -/
theorem c9_actual_rent_amended (d : DF) :
    (d.cols.contains "rent" = true →
      addActualRent d = d.setCol "actual_rent" (fun r => d.getVal "rent" r)) ∧
    (d.cols.contains "rent" = false →
      ∀ c0 rest,
        d.cols.filter (fun c => strContains (strLower c) "rent" && c != "petrent") = c0 :: rest →
        addActualRent d = d.setCol "actual_rent" (fun r => d.getVal c0 r)) ∧
    (d.cols.contains "rent" = false →
      d.cols.filter (fun c => strContains (strLower c) "rent" && c != "petrent") = [] →
      addActualRent d = d) := by
  refine ⟨?_, ?_, ?_⟩
  · intro h
    unfold addActualRent
    rw [if_pos h]
  · intro h c0 rest hf
    unfold addActualRent
    have hn : ¬ (d.cols.contains "rent" = true) := by rw [h]; simp
    rw [if_neg hn, hf]
  · intro h hf
    unfold addActualRent
    have hn : ¬ (d.cols.contains "rent" = true) := by rw [h]; simp
    rw [if_neg hn, hf]

/-- C9 amended witness: on a table with `market_rent` but no `rent` column,
`actual_rent` is assigned from `market_rent`. -/
theorem c9_actual_rent_amended_witness :
    addActualRent c9wdf = c9wdf.setCol "actual_rent" (fun r => c9wdf.getVal "market_rent" r) :=
  (c9_actual_rent_amended c9wdf).2.1 (by decide) "market_rent" [] (by decide)

/-- C1: the claim says `validate_rent_roll` always returns a report and never
raises — but the code raises `NameError` on every input: validator.py uses
`VALIDATION_THRESHOLDS` (line 29) and `REQUIRED_COLUMNS` (line 35) without
ever importing them from `src.config`, so no call gets past line 29.  This
evaluates the code as written, for every table and processing time. -/
theorem c1_validate_rent_roll_always_raises :
    ∀ (now : ℤ) (df : DF), validate_rent_roll now df = Except.error PyExc.nameError :=
  fun _ _ => rfl

/-- C3: on a table whose only defects are one duplicated unit id and one
negative market rent, the code as written still raises `NameError`; with the
missing config import supplied, the body scores exactly
`100 - duplicate_penalty - negative_rent_penalty = 85`, reports both findings
as warnings (and only those), and reports no errors. -/
theorem c3_validation_score_exactly_85 :
    validate_rent_roll c3now c3df = Except.error PyExc.nameError ∧
    (validate_rent_roll_with_config c3now c3df).data_quality_score =
      100 - data_quality_penalties.duplicate_units - data_quality_penalties.negative_market_rent ∧
    (validate_rent_roll_with_config c3now c3df).data_quality_score = 85 ∧
    (validate_rent_roll_with_config c3now c3df).warnings =
      [VMsg.duplicateUnits [PyVal.vstr "101"],
       VMsg.negativeMarketRent (some [PyVal.vstr "102"])] ∧
    (validate_rent_roll_with_config c3now c3df).errors = [] :=
  ⟨by decide, by decide, by decide, by decide, by decide⟩

/-! ## Lemmas for the detector's Python `max` -/

theorem pythonMax_mem (a : String × ℕ) (l : List (String × ℕ)) :
    pythonMax a l ∈ a :: l := by
  induction l generalizing a with
  | nil => simp [pythonMax]
  | cons b t ih =>
    unfold pythonMax
    by_cases hc : a.2 < b.2
    · rw [if_pos hc]
      rcases List.mem_cons.mp (ih b) with h1 | h1
      · rw [h1]; simp
      · simp [List.mem_cons, h1]
    · rw [if_neg hc]
      rcases List.mem_cons.mp (ih a) with h1 | h1
      · rw [h1]; simp
      · simp [List.mem_cons, h1]

theorem pythonMax_ge (a : String × ℕ) (l : List (String × ℕ)) :
    ∀ x ∈ a :: l, x.2 ≤ (pythonMax a l).2 := by
  induction l generalizing a with
  | nil =>
    intro x hx
    simp at hx
    simp [pythonMax, hx]
  | cons b t ih =>
    intro x hx
    unfold pythonMax
    have hle : a.2 ≤ (if a.2 < b.2 then b else a).2 := by
      by_cases hc : a.2 < b.2
      · simp [hc]; omega
      · simp [hc]
    have hlb : b.2 ≤ (if a.2 < b.2 then b else a).2 := by
      by_cases hc : a.2 < b.2
      · simp [hc]
      · simp [hc]; omega
    have hhead := ih (if a.2 < b.2 then b else a) _ (List.mem_cons_self _ _)
    rcases List.mem_cons.mp hx with h1 | h1
    · subst h1
      exact le_trans hle hhead
    · rcases List.mem_cons.mp h1 with h2 | h2
      · subst h2
        exact le_trans hlb hhead
      · exact ih (if a.2 < b.2 then b else a) x (List.mem_cons_of_mem _ h2)

/-- Python's strictly-greater `max` fold returns exactly the first list entry
attaining the winning score — the tie-break the spec documents. -/
theorem pythonMax_first (a : String × ℕ) (l : List (String × ℕ)) :
    firstWithScore (a :: l) (pythonMax a l).2 = some (pythonMax a l) := by
  induction l generalizing a with
  | nil =>
    simp [firstWithScore, pythonMax, List.find?]
  | cons b t ih =>
    unfold pythonMax
    by_cases hc : a.2 < b.2
    · rw [if_pos hc]
      have hge : b.2 ≤ (pythonMax b t).2 := pythonMax_ge b t b (List.mem_cons_self _ _)
      have hane : (a.2 == (pythonMax b t).2) = false := by
        simp
        omega
      have := ih b
      unfold firstWithScore at this ⊢
      rw [List.find?]
      rw [hane]
      exact this
    · rw [if_neg hc]
      have hge : a.2 ≤ (pythonMax a t).2 := pythonMax_ge a t a (List.mem_cons_self _ _)
      have := ih a
      unfold firstWithScore at this ⊢
      by_cases heq : a.2 = (pythonMax a t).2
      · have hfind : List.find? (fun x => x.2 == (pythonMax a t).2) (a :: t) = some a := by
          rw [List.find?]
          have hbeq : (a.2 == (pythonMax a t).2) = true := by simp [heq]
          rw [hbeq]
        rw [hfind] at this
        have haeq : pythonMax a t = a := by
          injection this with h2
          exact h2.symm
        rw [haeq]
        rw [List.find?]
        have hbeq : (a.2 == a.2) = true := by simp
        rw [hbeq]
      · have hane : (a.2 == (pythonMax a t).2) = false := by simp [heq]
        have hblt : b.2 < (pythonMax a t).2 := by omega
        have hbne : (b.2 == (pythonMax a t).2) = false := by
          simp
          omega
        rw [List.find?, hane, List.find?, hbne]
        rw [List.find?, hane] at this
        exact this

/-- C7: `detect_format` (a total function — absence of any signal is a result,
not an error) returns `generic` with confidence 0 exactly when the winning
weighted score is 0; any positive winning score — even below the detection
threshold of 3 — yields the best profile's name with positive confidence, and
the returned name is the *first-listed* profile attaining the winning score
(Python's `max` keeps the earlier entry on ties). -/
theorem c7_detect_format_selection (s : String) :
    ((bestFormatPair s).2 = 0 →
      (detect_format_core s).format = "generic" ∧ (detect_format_core s).confidence = 0 ∧
      (detect_format_core s).profile = none) ∧
    (0 < (bestFormatPair s).2 →
      0 < (detect_format_core s).confidence ∧
      (detect_format_core s).format = (bestFormatPair s).1 ∧
      (firstWithScore (profileScores s) (bestFormatPair s).2).map Prod.fst =
        some (detect_format_core s).format) ∧
    ((detect_format_core s).format = "generic" ∧ (detect_format_core s).confidence = 0 →
      (bestFormatPair s).2 = 0) := by
  refine ⟨?_, ?_, ?_⟩
  · intro h0
    unfold detect_format_core
    rw [if_neg (by omega), if_neg (by omega)]
    exact ⟨rfl, rfl, rfl⟩
  · intro hl
    have hfmt : (detect_format_core s).format = (bestFormatPair s).1 := by
      unfold detect_format_core
      by_cases h3 : 3 ≤ (bestFormatPair s).2
      · rw [if_pos h3]
      · rw [if_neg h3, if_pos hl]
    have hconf : 0 < (detect_format_core s).confidence := by
      unfold detect_format_core
      by_cases h3 : 3 ≤ (bestFormatPair s).2
      · rw [if_pos h3]
        show 0 < min 100 ((bestFormatPair s).2 * 5)
        omega
      · rw [if_neg h3, if_pos hl]
        show 0 < min 30 ((bestFormatPair s).2 * 5)
        omega
    refine ⟨hconf, hfmt, ?_⟩
    rw [hfmt]
    exact congrArg (Option.map Prod.fst) (pythonMax_first _ _)
  · intro hgc
    by_contra hne
    have h1 : 0 < (bestFormatPair s).2 := Nat.pos_of_ne_zero hne
    by_cases h3 : 3 ≤ (bestFormatPair s).2
    · have hc : (detect_format_core s).confidence = min 100 ((bestFormatPair s).2 * 5) := by
        unfold detect_format_core
        rw [if_pos h3]
      rw [hc] at hgc
      omega
    · have hc : (detect_format_core s).confidence = min 30 ((bestFormatPair s).2 * 5) := by
        unfold detect_format_core
        rw [if_neg h3, if_pos h1]
      rw [hc] at hgc
      omega

/-- C7 witness: the text `charge code` scores 5 for yardi (below nothing —
above the threshold), so detection returns `yardi` with positive
confidence. -/
theorem c7_detect_format_selection_witness :
    0 < (detect_format_core "charge code").confidence ∧
    (detect_format_core "charge code").format = "yardi" :=
  ⟨((c7_detect_format_selection "charge code").2.1 (by decide)).1,
   ((c7_detect_format_selection "charge code").2.1 (by decide)).2.1.trans (by decide)⟩

/-- C8: counterexample. On an Excel grid in which no row within the 20-row
lookahead matches any header signature (both header searches return `none`),
`find_header_and_data_start_excel` does not fail: it silently falls back to
row 0 as the header (data_loader.py lines 82-86) and returns a table built
from that guessed header — here the data row `1,2,3` under the guessed
column names `charge_code, x, y`. -/
theorem c8_header_fallback_counterexample :
    excelYardiHeaderIdx c8grid = none ∧
    excelGenericHeaderIdx c8grid = none ∧
    find_header_and_data_start_excel c8grid (some (detect_format_core "charge code")) =
      Except.ok { cols := ["charge_code", "x", "y"],
                  rows := [[some "1", some "2", some "3"]] } := by
  refine ⟨by decide, by decide, by decide⟩

/-- C8: amended. Only the CSV path fails on a missing header: when the
20-line header search finds nothing, `find_header_and_data_start_csv` raises
`ValueError` (line 239). The Excel path never fails for a missing header —
whenever the passed detection is non-generic and carries a profile it returns
a table, because a failed header search just falls back to row index 0. -/
theorem c8_header_failure_amended :
    (∀ (g : Grid) (f : DetectionResult) (p : FormatProfile),
      f.format ≠ "generic" → f.profile = some p →
      (find_header_and_data_start_excel g (some f)).isOk = true) ∧
    (∀ (g : Grid) (f : DetectionResult),
      excelYardiHeaderIdx g = none → excelGenericHeaderIdx g = none →
      excelHeaderRowIdx g f = 0) ∧
    (∀ (lines : List String) (fi : Option DetectionResult),
      csvHeaderIdx lines fi = Except.ok none →
      find_header_and_data_start_csv lines fi = Except.error PyExc.valueError) := by
  refine ⟨?_, ?_, ?_⟩
  · intro g f p hf hp
    simp only [find_header_and_data_start_excel]
    rw [if_neg hf, hp]
    rfl
  · intro g f h1 h2
    simp [excelHeaderRowIdx, h1, h2]
  · intro lines fi h
    simp only [find_header_and_data_start_csv]
    rw [h]

/-- C8: the amended behaviour at concrete inputs — the Excel path succeeds on
`c8grid` with a Yardi detection, and the CSV path raises `ValueError` on
`c8lines`, neither input containing a recognizable header. -/
theorem c8_header_failure_amended_witness :
    (find_header_and_data_start_excel c8grid (some (detect_format_core "charge code"))).isOk = true ∧
    find_header_and_data_start_csv c8lines none = Except.error PyExc.valueError :=
  ⟨c8_header_failure_amended.1 c8grid (detect_format_core "charge code") yardiProfile
      (by decide) (by decide),
   c8_header_failure_amended.2.2 c8lines none (by decide)⟩
